import Mathlib

/-
Verification development for OpenCore-Legacy-Patcher's patchset catalog and
validation harness.

Shallow embedding of:
  * `opencore_legacy_patcher/datasets/sys_patch_dict.py`
    (class `SystemPatchDictionary`: CVE predicate, framebuffer resolvers,
    and the generated patchset dictionary), and
  * `opencore_legacy_patcher/support/validation.py`
    (class `PatcherValidation`: `_validate_root_patch_files`,
    `_validate_sys_patch`, `_find_unused_files`).

Modelling conventions:
  * Python `float(f"{a}.{b}")` is modelled by the exact rational value of the
    decimal string `a.b` (see `pyFloat`).  All values compared in the source
    are two-component decimals of magnitude below 100 whose pairwise distance,
    when non-zero, is at least 1/100; IEEE-754 double rounding errors are below
    1e-12 at this magnitude, so the ordering of the doubles coincides with the
    ordering of the exact rationals, and equal decimal values round to the same
    double.  The rational model therefore has exactly the comparison behaviour
    of the Python floats.
  * `packaging.version.parse` (packaging >= 22) raises `InvalidVersion` on a
    string that is not a PEP 440 version, and the source calls it without a
    handler.  The marketing versions of this program are plain dotted numerals,
    so we model the dotted-numeral fragment of PEP 440: `parseDottedVersion`
    returns the list of numeric components, or `none` (= the exception) for a
    string that is not of that form.  PEP 440 compares release tuples
    componentwise with zero padding, which `releaseLe` implements.
  * Raising Python code is modelled with `Except`.
-/

namespace OCLP

/-
Kernel-major constants.  Modelled from the spec: `datasets/os_data.py` is not
under `src/`; the spec fixes Monterey = 21 ("major=21 (Monterey-series
boundary per spec)"), Ventura = 22 (section 8 scenario) and Sonoma = 23
("kernelMajor=23 (Sonoma)"), matching Darwin kernel-major numbering
(Sierra 16, High Sierra 17, Mojave 18, Catalina 19, Big Sur 20).  `max_os` is
the newest major known to the catalog, which at spec time is Sonoma.
-/
namespace os_data

def sierra : ℕ := 16
def high_sierra : ℕ := 17
def mojave : ℕ := 18
def catalina : ℕ := 19
def big_sur : ℕ := 20
def monterey : ℕ := 21
def ventura : ℕ := 22
def sonoma : ℕ := 23
def max_os : ℕ := sonoma

end os_data

/-- Number of characters CPython prints for a natural number, i.e. its number
of decimal digits (1 for 0). -/
def decimalDigits (n : ℕ) : ℕ := (Nat.toDigits 10 n).length

/-- Exact rational value of the decimal string `f"{intPart}.{fracPart}"`,
modelling Python's `float(f"{major}.{minor}")` (see the header comment for why
the exact-rational model has the same comparison behaviour). -/
def pyFloat (intPart fracPart : ℕ) : ℚ :=
  intPart + (fracPart : ℚ) / (10 : ℚ) ^ decimalDigits fracPart

/-- Python `s.startswith(pre)`. -/
def pyStartswith (s pre : String) : Bool := pre.data.isPrefixOf s.data

/-- Value of a list of decimal digit characters. -/
def digitsVal (l : List Char) : ℕ :=
  l.foldl (fun acc c => 10 * acc + (c.toNat - 48)) 0

/-- Python `s.split(".")` on the character list: splits at every `'.'`,
keeping empty groups (`"".split(".") == [""]`, `"a..b".split(".") ==
["a", "", "b"]`). -/
def splitOnDot (l : List Char) : List (List Char) :=
  l.foldr
    (fun c acc =>
      match acc with
      | [] => [[c]]
      | h :: t => if c = '.' then [] :: h :: t else (c :: h) :: t)
    [[]]

/-- Model of `packaging.version.parse` on the dotted-numeral fragment of
PEP 440 (the only shape of marketing version this program produces): the list
of numeric components, or `none` for a string that is not a dotted numeral
(where packaging >= 22 raises `InvalidVersion`). -/
def parseDottedVersion (s : String) : Option (List ℕ) :=
  let parts := splitOnDot s.data
  if parts.all fun p => !p.isEmpty && p.all (·.isDigit)
  then some (parts.map digitsVal)
  else none

/-- PEP 440 release-tuple comparison `a <= b`: componentwise, with the shorter
tuple padded with zeros (an exhausted left tuple contributes only zeros, so it
compares less-or-equal whatever remains on the right). -/
def releaseLe : List ℕ → List ℕ → Bool
  | [], _ => true
  | a0 :: as, [] => if 0 < a0 then false else releaseLe as []
  | a0 :: as, b0 :: bs =>
    if a0 < b0 then true else if b0 < a0 then false else releaseLe as bs

/-- Equality of `Except` results is decidable componentwise. -/
instance {ε α : Type} [DecidableEq ε] [DecidableEq α] : DecidableEq (Except ε α) :=
  fun x y =>
    match x, y with
    | .ok a, .ok b =>
      if h : a = b then .isTrue (by rw [h])
      else .isFalse (by intro hc; cases hc; exact h rfl)
    | .ok _, .error _ => .isFalse (by intro h; cases h)
    | .error _, .ok _ => .isFalse (by intro h; cases h)
    | .error e, .error f =>
      if h : e = f then .isTrue (by rw [h])
      else .isFalse (by intro hc; cases hc; exact h rfl)

/-- Python exceptions raised by the embedded code. -/
inductive PyError
  | invalidVersion
  | indexError
deriving DecidableEq, Repr

/-- `SystemPatchDictionary.__is_affect_by_cve_2024_23227`, translated from
`sys_patch_dict.py` lines 130-148.  The parse of the marketing version happens
before the prefix tests, so a malformed marketing version raises
(`.error .invalidVersion`) whenever `os_major <= sonoma`. -/
def is_affect_by_cve_2024_23227 (os_major : ℕ) (marketing_version : String) :
    Except PyError Bool :=
  if os_data.sonoma < os_major then .ok true
  else
    match parseDottedVersion marketing_version with
    | none => .error .invalidVersion
    | some parsed_version =>
      if pyStartswith marketing_version "12" then
        .ok (releaseLe [12, 7, 4] parsed_version)
      else if pyStartswith marketing_version "13" then
        .ok (releaseLe [13, 6, 5] parsed_version)
      else if pyStartswith marketing_version "14" then
        .ok (releaseLe [14, 4] parsed_version)
      else .ok false

/- XNU kernel-version constants from `SystemPatchDictionary.__init__`. -/

def macOS_12_0_B7 : ℚ := 21.1
def macOS_12_4 : ℚ := 21.5
def macOS_12_5 : ℚ := 21.6
def macOS_13_3 : ℚ := 22.4
def macOS_14_1 : ℚ := 23.1
def macOS_14_2 : ℚ := 23.2
def macOS_14_4 : ℚ := 23.4

/-- `SystemPatchDictionary.__resolve_ivy_bridge_framebuffers`
(`sys_patch_dict.py` lines 87-97).  `os_float` is `self.os_float`,
i.e. `pyFloat os_major os_minor`. -/
def resolve_ivy_bridge_framebuffers (os_major : ℕ) (os_float : ℚ) : String :=
  if os_major < os_data.sonoma then "11.7.10"
  else if os_float < macOS_14_4 then "11.7.10-23"
  else "11.7.10-23.4"

/-- `SystemPatchDictionary.__resolve_kepler_geforce_framebuffers`
(`sys_patch_dict.py` lines 100-108). -/
def resolve_kepler_geforce_framebuffers (os_major : ℕ) (os_float : ℚ) : String :=
  if os_major < os_data.sonoma then "12.0 Beta 6"
  else if os_float < macOS_14_4 then "12.0 Beta 6-23"
  else "12.0 Beta 6-23.4"

/-- `SystemPatchDictionary.__resolve_monterey_framebuffers`
(`sys_patch_dict.py` lines 111-127). -/
def resolve_monterey_framebuffers (os_major : ℕ) (os_float : ℚ) : String :=
  if os_major < os_data.sonoma then "12.5"
  else if os_float < macOS_14_4 then "12.5-23"
  else "12.5-23.4"

/-
### Patchset catalog data model

A patch group as produced by `SystemPatchDictionary._generate_sys_patch_dict`.
Python dictionaries are insertion ordered; they are modelled as association
lists in declaration order.  Conditional entries (`**({k: v} if cond else {})`)
become `(if cond then [(k, v)] else [])` list fragments at the same position.
-/

structure OSSupport where
  min_major : ℕ
  min_minor : ℕ
  max_major : ℕ
  max_minor : ℕ
deriving DecidableEq

structure PatchGroup where
  display_name : String := ""
  os_support : OSSupport
  install : List (String × List (String × String)) := []
  install_non_root : List (String × List (String × String)) := []
  remove : List (String × List String) := []
  remove_non_root : List (String × List String) := []
  processes : List (String × Bool) := []
deriving DecidableEq

/-- "Non-Metal Common" (`sys_patch_dict.py` lines 158-233). -/
def pg_non_metal_common (os_major : ℕ) (os_float : ℚ) (nm0 nmLast : ℕ) : PatchGroup where
  os_support := ⟨nm0, 0, nmLast, 99⟩
  install :=
    [("/System/Library/Extensions",
      [("IOSurface.kext", "10.15.7")]),
     ("/System/Library/Frameworks",
      [("OpenGL.framework", "10.14.3"),
       ("CoreDisplay.framework", "10.14.4-" ++ toString os_major),
       ("IOSurface.framework", "10.15.7-" ++ toString os_major),
       ("QuartzCore.framework", "10.15.7-" ++ toString os_major)]),
     ("/System/Library/PrivateFrameworks",
      [("GPUSupport.framework", "10.14.3"),
       ("SkyLight.framework", "10.14.6-" ++ toString os_major)] ++
      (if os_data.sonoma ≤ os_major then [("FaceCore.framework", "13.5")] else [])),
     ("/System/Applications",
      (if os_data.monterey ≤ os_major then [("Photo Booth.app", "11.7.9")] else []))]
  remove :=
    [("/System/Library/Extensions",
      ["AMDRadeonX4000.kext", "AMDRadeonX4000HWServices.kext", "AMDRadeonX5000.kext",
       "AMDRadeonX5000HWServices.kext", "AMDRadeonX6000.kext",
       "AMDRadeonX6000Framebuffer.kext", "AMDRadeonX6000HWServices.kext",
       "AppleIntelBDWGraphics.kext", "AppleIntelBDWGraphicsFramebuffer.kext",
       "AppleIntelCFLGraphicsFramebuffer.kext", "AppleIntelHD4000Graphics.kext",
       "AppleIntelHD5000Graphics.kext", "AppleIntelICLGraphics.kext",
       "AppleIntelICLLPGraphicsFramebuffer.kext", "AppleIntelKBLGraphics.kext",
       "AppleIntelKBLGraphicsFramebuffer.kext", "AppleIntelSKLGraphics.kext",
       "AppleIntelSKLGraphicsFramebuffer.kext", "AppleIntelFramebufferAzul.kext",
       "AppleIntelFramebufferCapri.kext", "AppleParavirtGPU.kext", "GeForce.kext",
       "IOAcceleratorFamily2.kext", "IOGPUFamily.kext", "AppleAfterburner.kext"])]
  install_non_root :=
    [("/Library/Application Support/SkyLightPlugins",
      (if os_data.monterey ≤ os_major then [("DropboxHack.dylib", "SkyLightPlugins")] else []) ++
      (if os_data.monterey ≤ os_major then [("DropboxHack.txt", "SkyLightPlugins")] else []))]
  processes :=
    (if macOS_12_4 ≤ os_float then
      [("/usr/bin/defaults write /Library/Preferences/.GlobalPreferences.plist ShowDate -int 1", true)]
     else []) ++
    [("/usr/bin/defaults write /Library/Preferences/.GlobalPreferences.plist InternalDebugUseGPUProcessForCanvasRenderingEnabled -bool false", true),
     ("/usr/bin/defaults write /Library/Preferences/.GlobalPreferences.plist WebKitExperimentalUseGPUProcessForCanvasRenderingEnabled -bool false", true)] ++
    (if os_data.sonoma ≤ os_major then
      [("/usr/bin/defaults write /Library/Preferences/.GlobalPreferences.plist WebKitPreferences.acceleratedDrawingEnabled -bool false", true)]
     else []) ++
    (if os_data.sonoma ≤ os_major then
      [("/usr/bin/defaults write /Library/Preferences/.GlobalPreferences.plist NSEnableAppKitMenus -bool false", true)]
     else []) ++
    (if os_data.sonoma ≤ os_major then
      [("/usr/bin/defaults write /Library/Preferences/.GlobalPreferences.plist NSZoomButtonShowMenu -bool false", true)]
     else [])

/-- "Non-Metal IOAccelerator Common" (lines 234-267). -/
def pg_non_metal_ioaccelerator_common (os_major nm0 nmLast : ℕ) : PatchGroup where
  os_support := ⟨nm0, 0, nmLast, 99⟩
  install :=
    [("/System/Library/Extensions",
      [("IOAcceleratorFamily2.kext", "10.13.6"),
       ("IOSurface.kext", "10.14.6")]),
     ("/System/Library/Frameworks",
      [("IOSurface.framework", "10.14.6-" ++ toString os_major),
       ("OpenCL.framework", "10.13.6")]),
     ("/System/Library/PrivateFrameworks",
      [("GPUSupport.framework", "10.13.6"),
       ("IOAccelerator.framework", "10.13.6-" ++ toString os_major)])]
  remove :=
    [("/System/Library/Extensions", ["AppleCameraInterface.kext"])]

/-- "Non-Metal CoreDisplay Common" (lines 269-287). -/
def pg_non_metal_coredisplay_common (os_major nm0 nmLast : ℕ) : PatchGroup where
  os_support := ⟨nm0, 0, nmLast, 99⟩
  install :=
    [("/System/Library/Frameworks",
      [("CoreDisplay.framework", "10.13.6-" ++ toString os_major)])]

/-- "Non-Metal Enforcement" (lines 289-311). -/
def pg_non_metal_enforcement (nm0 nmLast : ℕ) : PatchGroup where
  os_support := ⟨nm0, 0, nmLast, 99⟩
  processes :=
    [("/usr/bin/defaults write /Library/Preferences/com.apple.CoreDisplay useMetal -boolean no", true),
     ("/usr/bin/defaults write /Library/Preferences/com.apple.CoreDisplay useIOP -boolean no", true)]

/-- "Revert Non-Metal ColorSync Workaround" (lines 313-333). -/
def pg_revert_non_metal_colorsync_workaround : PatchGroup where
  os_support := ⟨os_data.ventura, 0, os_data.ventura, 99⟩
  remove :=
    [("/System/Library/Frameworks/ColorSync.framework/Versions/A",
      ["ColorSync", "ColorSyncOld.dylib"])]

/-- "Metal Common" (lines 339-357). -/
def pg_metal_common : PatchGroup where
  os_support := ⟨os_data.ventura, 0, os_data.max_os, 99⟩
  install :=
    [("/System/Library/Frameworks",
      [("Metal.framework", "12.5"),
       ("MetalPerformanceShaders.framework", "12.5")])]

/-- "Revert Metal Downgrade" (lines 363-384). -/
def pg_revert_metal_downgrade : PatchGroup where
  os_support := ⟨os_data.ventura, 0, os_data.ventura, 99⟩
  remove :=
    [("/System/Library/Frameworks/Metal.framework/Versions/A/",
      ["Metal", "MetalOld.dylib"]),
     ("/System/Library/Frameworks/MetalPerformanceShaders.framework/Versions/A/Frameworks/MPSCore.framework/Versions/A",
      ["MPSCore"])]

/-- "WebKit Monterey Common" (lines 389-411). -/
def pg_webkit_monterey_common : PatchGroup where
  os_support := ⟨os_data.monterey, 0, os_data.monterey, 99⟩
  install :=
    [("/System/Library/Frameworks", [("WebKit.framework", "11.6")])]
  install_non_root :=
    [("/Library/Apple/System/Library/StagedFrameworks/Safari",
      [("WebKit.framework", "11.6")])]

/-- "Metal 3802 Common" (lines 415-439). -/
def pg_metal_3802_common (os_major : ℕ) : PatchGroup where
  os_support := ⟨os_data.ventura, 0, os_data.max_os, 99⟩
  install :=
    [("/System/Library/Frameworks",
      [("Metal.framework", "12.5-3802-" ++ toString os_major)]),
     ("/System/Library/PrivateFrameworks",
      [("MTLCompiler.framework", "12.5-3802"),
       ("GPUCompiler.framework", "12.5-3802")]),
     ("/System/Library/Sandbox/Profiles",
      [("com.apple.mtlcompilerservice.sb", "12.5-3802")])]

/-- "Metal 3802 Common Extended" (lines 443-471). -/
def pg_metal_3802_common_extended (os_major : ℕ) (os_float : ℚ) : PatchGroup where
  os_support := ⟨os_data.ventura, 4, os_data.max_os, 99⟩
  install :=
    [("/System/Library/Frameworks",
      [("Metal.framework", "13.2.1-" ++ toString os_major)] ++
      (if os_data.sonoma ≤ os_major then [("CoreImage.framework", "14.0 Beta 3")] else [])),
     ("/System/Library/PrivateFrameworks",
      (if os_major = os_data.ventura then [("MTLCompiler.framework", "13.2.1")] else []) ++
      (if os_major = os_data.ventura then [("GPUCompiler.framework", "13.2.1")] else []) ++
      [("RenderBox.framework",
        if os_major = os_data.ventura then "13.2.1-3802" else "14.0-3802")] ++
      (if macOS_14_2 ≤ os_float then [("MTLCompiler.framework", "14.2 Beta 1")] else []) ++
      (if macOS_14_2 ≤ os_float then [("GPUCompiler.framework", "14.2 Beta 1")] else []))]

/-- "Revert GVA Downgrade" (lines 474-494). -/
def pg_revert_gva_downgrade : PatchGroup where
  os_support := ⟨os_data.ventura, 0, os_data.max_os, 99⟩
  remove :=
    [("/System/Library/PrivateFrameworks/AppleGVA.framework/Versions/A/",
      ["AppleGVA"]),
     ("/System/Library/PrivateFrameworks/AppleGVACore.framework/Versions/A/",
      ["AppleGVACore"])]

/-- "Catalina GVA" (lines 498-516). -/
def pg_catalina_gva : PatchGroup where
  os_support := ⟨os_data.monterey, 0, os_data.max_os, 99⟩
  install :=
    [("/System/Library/PrivateFrameworks",
      [("AppleGVA.framework", "11.7.10"),
       ("AppleGVACore.framework", "11.7.10")])]

/-- "Monterey GVA" (lines 520-538). -/
def pg_monterey_gva : PatchGroup where
  os_support := ⟨os_data.ventura, 0, os_data.max_os, 99⟩
  install :=
    [("/System/Library/PrivateFrameworks",
      [("AppleGVA.framework", "12.5"),
       ("AppleGVACore.framework", "12.5")])]

/-- "High Sierra GVA" (lines 540-558). -/
def pg_high_sierra_gva (nm0 : ℕ) : PatchGroup where
  os_support := ⟨nm0, 0, os_data.max_os, 99⟩
  install :=
    [("/System/Library/PrivateFrameworks",
      [("AppleGVA.framework", "10.13.6"),
       ("AppleGVACore.framework", "10.15.7")])]

/-- "Big Sur OpenCL" (lines 560-577). -/
def pg_big_sur_opencl : PatchGroup where
  os_support := ⟨os_data.monterey, 0, os_data.max_os, 99⟩
  install :=
    [("/System/Library/Frameworks", [("OpenCL.framework", "11.6")])]

/-- "Monterey OpenCL" (lines 579-596). -/
def pg_monterey_opencl : PatchGroup where
  os_support := ⟨os_data.ventura, 0, os_data.max_os, 99⟩
  install :=
    [("/System/Library/Frameworks", [("OpenCL.framework", "12.5")])]

/-- "AMD OpenCL" (lines 599-617). -/
def pg_amd_opencl : PatchGroup where
  os_support := ⟨os_data.ventura, 0, os_data.max_os, 99⟩
  install :=
    [("/System/Library/Frameworks",
      [("OpenCL.framework", "12.5 non-AVX2.0"),
       ("OpenGL.framework", "12.5 non-AVX2.0")])]

/-- "Nvidia Tesla" (lines 619-643). -/
def pg_nvidia_tesla (os_float : ℚ) : PatchGroup where
  display_name := "Graphics: Nvidia Tesla"
  os_support := ⟨os_data.mojave, 0, os_data.max_os, 99⟩
  install :=
    [("/System/Library/Extensions",
      [("GeForceGA.bundle", "10.13.6"),
       ("GeForceTesla.kext", "10.13.6"),
       ("GeForceTeslaGLDriver.bundle", "10.13.6"),
       ("GeForceTeslaVADriver.bundle", "10.13.6"),
       ("NVDANV50HalTesla.kext", "10.13.6"),
       ("NVDAResmanTesla.kext", "10.13.6")] ++
      (if macOS_12_0_B7 ≤ os_float then [("NVDAStartup.kext", "12.0 Beta 6")] else []))]

/-- "Nvidia Kepler" (lines 644-677). -/
def pg_nvidia_kepler (os_major : ℕ) (os_float : ℚ) : PatchGroup where
  display_name := "Graphics: Nvidia Kepler"
  os_support := ⟨os_data.monterey, 1, os_data.max_os, 99⟩
  install :=
    [("/System/Library/Extensions",
      [("GeForce.kext", resolve_kepler_geforce_framebuffers os_major os_float),
       ("NVDAGF100Hal.kext", "12.0 Beta 6"),
       ("NVDAGK100Hal.kext", "12.0 Beta 6"),
       ("NVDAResman.kext", "12.0 Beta 6"),
       ("NVDAStartup.kext", "12.0 Beta 6"),
       ("GeForceAIRPlugin.bundle", "11.0 Beta 3"),
       ("GeForceGLDriver.bundle", "11.0 Beta 3"),
       ("GeForceMTLDriver.bundle",
        if os_major ≤ os_data.monterey then "11.0 Beta 3" else "11.0 Beta 3-22"),
       ("GeForceVADriver.bundle", "12.0 Beta 6")]),
     ("/System/Library/Frameworks",
      (if macOS_12_5 ≤ os_float ∧ os_major < os_data.ventura then
        [("Metal.framework", "12.5 Beta 2")]
       else [])),
     ("/System/Library/PrivateFrameworks",
      [("GPUCompiler.framework", "11.6")])]

/-- "Nvidia Web Drivers" (lines 678-742). -/
def pg_nvidia_web_drivers (os_major : ℕ) : PatchGroup where
  display_name := "Graphics: Nvidia Web Drivers"
  os_support := ⟨os_data.mojave, 0, os_data.max_os, 99⟩
  install :=
    [("/System/Library/Extensions",
      [("GeForceAIRPluginWeb.bundle", "WebDriver-387.10.10.10.40.140"),
       ("GeForceGLDriverWeb.bundle", "WebDriver-387.10.10.10.40.140"),
       ("GeForceMTLDriverWeb.bundle", "WebDriver-387.10.10.10.40.140"),
       ("GeForceVADriverWeb.bundle", "WebDriver-387.10.10.10.40.140"),
       ("GeForceTeslaGAWeb.bundle", "WebDriver-387.10.10.10.40.140"),
       ("GeForceTeslaGLDriverWeb.bundle", "WebDriver-387.10.10.10.40.140"),
       ("GeForceTeslaVADriverWeb.bundle", "WebDriver-387.10.10.10.40.140")]),
     ("/System/Library/PrivateFrameworks",
      (if os_data.monterey ≤ os_major then [("GPUCompiler.framework", "11.6")] else []))]
  install_non_root :=
    [("/Library/Extensions",
      [("GeForceWeb.kext", "WebDriver-387.10.10.10.40.140"),
       ("NVDAGF100HalWeb.kext", "WebDriver-387.10.10.10.40.140"),
       ("NVDAGK100HalWeb.kext", "WebDriver-387.10.10.10.40.140"),
       ("NVDAGM100HalWeb.kext", "WebDriver-387.10.10.10.40.140"),
       ("NVDAGP100HalWeb.kext", "WebDriver-387.10.10.10.40.140"),
       ("NVDAResmanWeb.kext", "WebDriver-387.10.10.10.40.140"),
       ("NVDAStartupWeb.kext", "WebDriver-387.10.10.10.40.140"),
       ("GeForceTeslaWeb.kext", "WebDriver-387.10.10.10.40.140"),
       ("NVDANV50HalTeslaWeb.kext", "WebDriver-387.10.10.10.40.140"),
       ("NVDAResmanTeslaWeb.kext", "WebDriver-387.10.10.10.40.140")])]
  remove :=
    [("/System/Library/Extensions", ["NVDAStartup.kext"])]

/-- "AMD TeraScale Common" (lines 743-773). -/
def pg_amd_terascale_common : PatchGroup where
  os_support := ⟨os_data.mojave, 0, os_data.max_os, 99⟩
  install :=
    [("/System/Library/Extensions",
      [("AMDFramebuffer.kext", "10.13.6"),
       ("AMDLegacyFramebuffer.kext", "10.13.6"),
       ("AMDLegacySupport.kext", "10.13.6"),
       ("AMDShared.bundle", "10.13.6"),
       ("AMDSupport.kext", "10.13.6")])]
  remove :=
    [("/System/Library/Extensions",
      ["AMD7000Controller.kext", "AMD8000Controller.kext", "AMD9000Controller.kext",
       "AMD9500Controller.kext", "AMD10000Controller.kext"])]

/-- "AMD TeraScale 1" (lines 775-813). -/
def pg_amd_terascale_1 (os_major : ℕ) : PatchGroup where
  display_name := "Graphics: AMD TeraScale 1"
  os_support := ⟨os_data.mojave, 0, os_data.max_os, 99⟩
  install :=
    [("/System/Library/Extensions",
      [("AMD2400Controller.kext", "10.13.6"),
       ("AMD2600Controller.kext", "10.13.6"),
       ("AMD3800Controller.kext", "10.13.6"),
       ("AMD4600Controller.kext", "10.13.6"),
       ("AMD4800Controller.kext", "10.13.6"),
       ("ATIRadeonX2000.kext",
        if os_major < os_data.ventura then "10.13.6" else "10.13.6 TS1"),
       ("ATIRadeonX2000GA.plugin", "10.13.6"),
       ("ATIRadeonX2000GLDriver.bundle", "10.13.6"),
       ("ATIRadeonX2000VADriver.bundle", "10.13.6")])]
  remove :=
    [("/System/Library/Extensions",
      ["AMD5000Controller.kext", "AMD6000Controller.kext", "AMDRadeonVADriver.bundle",
       "AMDRadeonVADriver2.bundle", "AMDRadeonX3000.kext",
       "AMDRadeonX3000GLDriver.bundle"])]

/-- "AMD TeraScale 2" (lines 814-836). -/
def pg_amd_terascale_2 : PatchGroup where
  display_name := "Graphics: AMD TeraScale 2"
  os_support := ⟨os_data.mojave, 0, os_data.max_os, 99⟩
  install :=
    [("/System/Library/Extensions",
      [("AMD5000Controller.kext", "10.13.6"),
       ("AMD6000Controller.kext", "10.13.6"),
       ("AMDRadeonVADriver.bundle", "10.13.6"),
       ("AMDRadeonVADriver2.bundle", "10.13.6"),
       ("AMDRadeonX3000.kext", "10.13.6"),
       ("AMDRadeonX3000GLDriver.bundle", "10.13.6")])]

/-- "AMD Legacy GCN" (lines 837-868). -/
def pg_amd_legacy_gcn (os_major : ℕ) (os_float : ℚ) : PatchGroup where
  display_name := "Graphics: AMD Legacy GCN"
  os_support := ⟨os_data.ventura, 0, os_data.max_os, 99⟩
  install :=
    [("/System/Library/Extensions",
      [("AMD7000Controller.kext", "12.5"),
       ("AMD8000Controller.kext", "12.5"),
       ("AMD9000Controller.kext", "12.5"),
       ("AMD9500Controller.kext", "12.5"),
       ("AMD10000Controller.kext", "12.5"),
       ("AMDRadeonX4000.kext", resolve_monterey_framebuffers os_major os_float),
       ("AMDRadeonX4000HWServices.kext", "12.5"),
       ("AMDFramebuffer.kext", if os_float < macOS_13_3 then "12.5" else "12.5-GCN"),
       ("AMDSupport.kext", "12.5"),
       ("AMDRadeonVADriver.bundle", "12.5"),
       ("AMDRadeonVADriver2.bundle", "12.5"),
       ("AMDRadeonX4000GLDriver.bundle", "12.5"),
       ("AMDMTLBronzeDriver.bundle", "12.5"),
       ("AMDShared.bundle", "12.5")])]

/-- "AMD Legacy GCN v2" (lines 873-901). -/
def pg_amd_legacy_gcn_v2 : PatchGroup where
  display_name := "Graphics: AMD Legacy GCN (2017)"
  os_support := ⟨os_data.sonoma, 0, os_data.max_os, 99⟩
  install :=
    [("/System/Library/Extensions",
      [("AMD9500Controller.kext", "13.5.2"),
       ("AMD10000Controller.kext", "13.5.2"),
       ("AMDRadeonX4000.kext", "13.5.2"),
       ("AMDRadeonX4000HWServices.kext", "13.5.2"),
       ("AMDFramebuffer.kext", "13.5.2"),
       ("AMDSupport.kext", "13.5.2"),
       ("AMDRadeonVADriver.bundle", "13.5.2"),
       ("AMDRadeonVADriver2.bundle", "13.5.2"),
       ("AMDRadeonX4000GLDriver.bundle", "13.5.2"),
       ("AMDMTLBronzeDriver.bundle", "13.5.2"),
       ("AMDShared.bundle", "13.5.2")])]

/-- "AMD Legacy Polaris" (lines 905-928). -/
def pg_amd_legacy_polaris (os_major : ℕ) (os_float : ℚ) : PatchGroup where
  display_name := "Graphics: AMD Legacy Polaris"
  os_support := ⟨os_data.ventura, 0, os_data.max_os, 99⟩
  install :=
    [("/System/Library/Extensions",
      [("AMDRadeonX4000.kext", resolve_monterey_framebuffers os_major os_float),
       ("AMDRadeonX4000HWServices.kext", "12.5"),
       ("AMDRadeonVADriver2.bundle", "12.5"),
       ("AMDRadeonX4000GLDriver.bundle", "12.5"),
       ("AMDMTLBronzeDriver.bundle", "12.5"),
       ("AMDShared.bundle", "12.5")])]

/-- "AMD Legacy Vega" (lines 929-953). -/
def pg_amd_legacy_vega (os_major : ℕ) (os_float : ℚ) : PatchGroup where
  display_name := "Graphics: AMD Legacy Vega"
  os_support := ⟨os_data.ventura, 0, os_data.max_os, 99⟩
  install :=
    [("/System/Library/Extensions",
      [("AMDRadeonX5000.kext", resolve_monterey_framebuffers os_major os_float),
       ("AMDRadeonVADriver2.bundle", "12.5"),
       ("AMDRadeonX5000GLDriver.bundle", "12.5"),
       ("AMDRadeonX5000MTLDriver.bundle", "12.5"),
       ("AMDRadeonX5000Shared.bundle", "12.5"),
       ("AMDShared.bundle", "12.5")])]

/-- "AMD Legacy Vega Extended" (lines 957-974). -/
def pg_amd_legacy_vega_extended : PatchGroup where
  os_support := ⟨os_data.ventura, 0, os_data.max_os, 99⟩
  install :=
    [("/System/Library/Extensions",
      [("AMDRadeonX5000HWServices.kext", "12.5")])]

/-- "Intel Ironlake" (lines 975-996). -/
def pg_intel_ironlake : PatchGroup where
  display_name := "Graphics: Intel Ironlake"
  os_support := ⟨os_data.mojave, 0, os_data.max_os, 99⟩
  install :=
    [("/System/Library/Extensions",
      [("AppleIntelHDGraphics.kext", "10.13.6"),
       ("AppleIntelHDGraphicsFB.kext", "10.13.6"),
       ("AppleIntelHDGraphicsGA.plugin", "10.13.6"),
       ("AppleIntelHDGraphicsGLDriver.bundle", "10.13.6"),
       ("AppleIntelHDGraphicsVADriver.bundle", "10.13.6")])]

/-- "Intel Sandy Bridge" (lines 997-1019). -/
def pg_intel_sandy_bridge : PatchGroup where
  display_name := "Graphics: Intel Sandy Bridge"
  os_support := ⟨os_data.mojave, 0, os_data.max_os, 99⟩
  install :=
    [("/System/Library/Extensions",
      [("AppleIntelHD3000Graphics.kext", "10.13.6"),
       ("AppleIntelHD3000GraphicsGA.plugin", "10.13.6"),
       ("AppleIntelHD3000GraphicsGLDriver.bundle", "10.13.6"),
       ("AppleIntelHD3000GraphicsVADriver.bundle", "10.13.6"),
       ("AppleIntelSNBGraphicsFB.kext", "10.13.6"),
       ("AppleIntelSNBVA.bundle", "10.13.6")])]

/-- "Intel Ivy Bridge" (lines 1020-1043). -/
def pg_intel_ivy_bridge (os_major : ℕ) (os_float : ℚ) : PatchGroup where
  display_name := "Graphics: Intel Ivy Bridge"
  os_support := ⟨os_data.monterey, 0, os_data.max_os, 99⟩
  install :=
    [("/System/Library/Extensions",
      [("AppleIntelHD4000GraphicsGLDriver.bundle", "11.7.10"),
       ("AppleIntelHD4000GraphicsMTLDriver.bundle",
        if os_major < os_data.ventura then "11.7.10" else "11.7.10-22"),
       ("AppleIntelHD4000GraphicsVADriver.bundle", "11.7.10"),
       ("AppleIntelFramebufferCapri.kext", resolve_ivy_bridge_framebuffers os_major os_float),
       ("AppleIntelHD4000Graphics.kext", resolve_ivy_bridge_framebuffers os_major os_float),
       ("AppleIntelIVBVA.bundle", "11.7.10"),
       ("AppleIntelGraphicsShared.bundle", "11.7.10")])]

/-- "Intel Haswell" (lines 1044-1067). -/
def pg_intel_haswell (os_major : ℕ) (os_float : ℚ) : PatchGroup where
  display_name := "Graphics: Intel Haswell"
  os_support := ⟨os_data.ventura, 0, os_data.max_os, 99⟩
  install :=
    [("/System/Library/Extensions",
      [("AppleIntelFramebufferAzul.kext", resolve_monterey_framebuffers os_major os_float),
       ("AppleIntelHD5000Graphics.kext", resolve_monterey_framebuffers os_major os_float),
       ("AppleIntelHD5000GraphicsGLDriver.bundle", "12.5"),
       ("AppleIntelHD5000GraphicsMTLDriver.bundle", "12.5"),
       ("AppleIntelHD5000GraphicsVADriver.bundle", "12.5"),
       ("AppleIntelHSWVA.bundle", "12.5"),
       ("AppleIntelGraphicsShared.bundle", "12.5")])]

/-- "Intel Broadwell" (lines 1068-1091). -/
def pg_intel_broadwell (os_major : ℕ) (os_float : ℚ) : PatchGroup where
  display_name := "Graphics: Intel Broadwell"
  os_support := ⟨os_data.ventura, 0, os_data.max_os, 99⟩
  install :=
    [("/System/Library/Extensions",
      [("AppleIntelBDWGraphics.kext", resolve_monterey_framebuffers os_major os_float),
       ("AppleIntelBDWGraphicsFramebuffer.kext", resolve_monterey_framebuffers os_major os_float),
       ("AppleIntelBDWGraphicsGLDriver.bundle", "12.5"),
       ("AppleIntelBDWGraphicsMTLDriver.bundle", "12.5-22"),
       ("AppleIntelBDWGraphicsVADriver.bundle", "12.5"),
       ("AppleIntelBDWGraphicsVAME.bundle", "12.5"),
       ("AppleIntelGraphicsShared.bundle", "12.5")])]

/-- "Intel Skylake" (lines 1092-1115). -/
def pg_intel_skylake (os_major : ℕ) (os_float : ℚ) : PatchGroup where
  display_name := "Graphics: Intel Skylake"
  os_support := ⟨os_data.ventura, 0, os_data.max_os, 99⟩
  install :=
    [("/System/Library/Extensions",
      [("AppleIntelSKLGraphics.kext", resolve_monterey_framebuffers os_major os_float),
       ("AppleIntelSKLGraphicsFramebuffer.kext", resolve_monterey_framebuffers os_major os_float),
       ("AppleIntelSKLGraphicsGLDriver.bundle", "12.5"),
       ("AppleIntelSKLGraphicsMTLDriver.bundle", "12.5"),
       ("AppleIntelSKLGraphicsVADriver.bundle", "12.5"),
       ("AppleIntelSKLGraphicsVAME.bundle", "12.5"),
       ("AppleIntelGraphicsShared.bundle", "12.5")])]

/-- "Legacy Realtek" (lines 1118-1146). -/
def pg_legacy_realtek : PatchGroup where
  display_name := "Audio: Legacy Realtek"
  os_support := ⟨os_data.sierra, 0, os_data.max_os, 99⟩
  install :=
    [("/System/Library/Extensions",
      [("AppleHDA.kext", "10.11.6"),
       ("IOAudioFamily.kext", "10.11.6")])]
  remove :=
    [("/System/Library/Extensions",
      ["AppleVirtIO.kext", "AppleVirtualGraphics.kext", "AppleVirtualPlatform.kext",
       "ApplePVPanic.kext", "AppleVirtIOStorage.kext"])]

/-- "Legacy Non-GOP" (lines 1148-1165). -/
def pg_legacy_non_gop : PatchGroup where
  display_name := "Audio: Legacy non-GOP"
  os_support := ⟨os_data.mojave, 0, os_data.max_os, 99⟩
  install :=
    [("/System/Library/Extensions", [("AppleHDA.kext", "10.13.6")])]

/-- "Legacy Wireless" (lines 1168-1194). -/
def pg_legacy_wireless (os_major : ℕ) (affected_by_cve : Bool) : PatchGroup where
  display_name := "Networking: Legacy Wireless"
  os_support := ⟨os_data.monterey, 0, os_data.max_os, 99⟩
  install :=
    [("/usr/libexec",
      [("airportd", if affected_by_cve = false then "11.7.10" else "11.7.10-Sandbox")]),
     ("/System/Library/CoreServices",
      [("WiFiAgent.app", "11.7.10")])]
  install_non_root :=
    [("/Library/Application Support/SkyLightPlugins",
      (if os_major = os_data.monterey then [("CoreWLAN.dylib", "SkyLightPlugins")] else []) ++
      (if os_major = os_data.monterey then [("CoreWLAN.txt", "SkyLightPlugins")] else []))]

/-- "Legacy Wireless Extended" (lines 1195-1221). -/
def pg_legacy_wireless_extended : PatchGroup where
  os_support := ⟨os_data.ventura, 0, os_data.max_os, 99⟩
  install :=
    [("/usr/libexec",
      [("wps", "12.7.2"),
       ("wifip2pd", "12.7.2")]),
     ("/System/Library/Frameworks",
      [("CoreWLAN.framework", "12.7.2")]),
     ("/System/Library/PrivateFrameworks",
      [("CoreWiFi.framework", "12.7.2"),
       ("IO80211.framework", "12.7.2"),
       ("WiFiPeerToPeer.framework", "12.7.2")])]

/-- "Modern Wireless" (lines 1224-1250). -/
def pg_modern_wireless (os_major : ℕ) : PatchGroup where
  display_name := "Networking: Modern Wireless"
  os_support := ⟨os_data.sonoma, 0, os_data.max_os, 99⟩
  install :=
    [("/usr/libexec",
      [("airportd", "13.6.5"),
       ("wifip2pd", "13.6.5")]),
     ("/System/Library/Frameworks",
      [("CoreWLAN.framework", "13.6.5-" ++ toString os_major)]),
     ("/System/Library/PrivateFrameworks",
      [("CoreWiFi.framework", "13.6.5-" ++ toString os_major),
       ("IO80211.framework", "13.6.5-" ++ toString os_major),
       ("WiFiPeerToPeer.framework", "13.6.5-" ++ toString os_major)])]

/-- "Legacy Backlight Control" (lines 1253-1279). -/
def pg_legacy_backlight_control : PatchGroup where
  display_name := "Brightness: Legacy Backlight Control"
  os_support := ⟨os_data.high_sierra, 0, os_data.max_os, 99⟩
  install :=
    [("/System/Library/Extensions",
      [("AppleBacklight.kext", "10.12.6"),
       ("AppleBacklightExpert.kext", "10.12.6")]),
     ("/System/Library/PrivateFrameworks",
      [("DisplayServices.framework", "10.12.6")])]
  remove :=
    [("/System/Library/Extensions/AppleGraphicsControl.kext/Contents/PlugIns",
      ["AGDCBacklightControl.kext"])]

/-- "Legacy GMUX" (lines 1282-1308). -/
def pg_legacy_gmux : PatchGroup where
  display_name := "Miscellaneous: Legacy GMUX"
  os_support := ⟨os_data.high_sierra, 0, os_data.max_os, 99⟩
  install :=
    [("/System/Library/Extensions/AppleGraphicsControl.kext/Contents/PlugIns",
      [("AppleMuxControl.kext", "10.12.6")])]
  remove :=
    [("/System/Library/Extensions", ["AppleBacklight.kext"]),
     ("/System/Library/Extensions/AppleGraphicsControl.kext/Contents/PlugIns",
      ["AGDCBacklightControl.kext", "AppleMuxControl.kext"])]

/-- "Legacy Keyboard Backlight" (lines 1309-1324). -/
def pg_legacy_keyboard_backlight (nm0 nmLast : ℕ) : PatchGroup where
  display_name := "Miscellaneous: Legacy Keyboard Backlight"
  os_support := ⟨nm0, 0, nmLast, 99⟩
  processes :=
    [("/usr/bin/defaults write /Library/Preferences/.GlobalPreferences.plist Moraea_BacklightHack -bool true", true)]

/-- "Legacy USB 1.1" (lines 1325-1342). -/
def pg_legacy_usb_1_1 (os_float : ℚ) : PatchGroup where
  display_name := "Miscellaneous: Legacy USB 1.1"
  os_support := ⟨os_data.ventura, 0, os_data.max_os, 99⟩
  install :=
    [("/System/Library/Extensions",
      [("IOUSBHostFamily.kext",
        if os_float < macOS_14_4 then "12.6.2" else "12.6.2-23.4")])]

/-- "Legacy USB 1.1 Extended" (lines 1344-1364). -/
def pg_legacy_usb_1_1_extended : PatchGroup where
  os_support := ⟨os_data.sonoma, 1, os_data.max_os, 99⟩
  install :=
    [("/System/Library/Extensions/IOUSBHostFamily.kext/Contents/PlugIns",
      [("AppleUSBOHCI.kext", "12.6.2-USB"),
       ("AppleUSBOHCIPCI.kext", "12.6.2-USB"),
       ("AppleUSBUHCI.kext", "12.6.2-USB"),
       ("AppleUSBUHCIPCI.kext", "12.6.2-USB")])]

/-- "PCIe FaceTime Camera" (lines 1366-1394). -/
def pg_pcie_facetime_camera : PatchGroup where
  display_name := "Miscellaneous: PCIe FaceTime Camera"
  os_support := ⟨os_data.sonoma, 0, os_data.max_os, 99⟩
  install :=
    [("/System/Library/Frameworks/CoreMediaIO.framework/Versions/A/Resources",
      [("AppleCamera.plugin", "14.0 Beta 1")]),
     ("/System/Library/LaunchDaemons",
      [("com.apple.cmio.AppleCameraAssistant.plist", "14.0 Beta 1")])]
  remove_non_root :=
    [("/Library/CoreMediaIO/Plug-Ins/DAL", ["AppleCamera.plugin"]),
     ("/Library/LaunchDaemons", ["com.apple.cmio.AppleCameraAssistant.plist"])]

/-- "T1 Security Chip" (lines 1395-1438). -/
def pg_t1_security_chip (os_major : ℕ) : PatchGroup where
  display_name := "Miscellaneous: T1 Security Chip"
  os_support := ⟨os_data.sonoma, 0, os_data.max_os, 99⟩
  install :=
    [("/System/Library/Frameworks",
      [("LocalAuthentication.framework", "13.6-" ++ toString os_major)]),
     ("/System/Library/PrivateFrameworks",
      [("EmbeddedOSInstall.framework", "13.6")]),
     ("/usr/lib",
      [("libNFC_Comet.dylib", "13.6"),
       ("libNFC_HAL.dylib", "13.6"),
       ("libnfshared.dylib", "13.6"),
       ("libnfshared.dylibOld.dylib", "13.6"),
       ("libnfstorage.dylib", "13.6"),
       ("libnfrestore.dylib", "13.6"),
       ("libPN548_API.dylib", "13.6")]),
     ("/usr/libexec",
      [("biometrickitd", "13.6"),
       ("nfcd", "13.6"),
       ("nfrestore_service", "13.6")]),
     ("/usr/standalone/firmware/nfrestore/firmware/fw",
      [("PN549_FW_02_01_5A_rev88207.bin", "13.6"),
       ("SN100V_FW_A3_01_01_81_rev127208.bin", "13.6"),
       ("SN200V_FW_B1_02_01_86_rev127266.bin", "13.6"),
       ("SN300V_FW_B0_02_01_22_rev129172.bin", "13.6")])]

/-- `SystemPatchDictionary._generate_sys_patch_dict` (lines 151-1440): the
full patchset dictionary, as a category -> (name -> group) association list in
declaration order.  `nm0` and `nmLast` are `self.non_metal_os_support[0]` and
`[-1]`; `os_float` is `self.os_float`; `affected_by_cve` is
`self.affected_by_cve_2024_23227`. -/
def sys_patch_dict (os_major os_minor nm0 nmLast : ℕ) (affected_by_cve : Bool) :
    List (String × List (String × PatchGroup)) :=
  let os_float := pyFloat os_major os_minor
  [("Graphics",
    [("Non-Metal Common", pg_non_metal_common os_major os_float nm0 nmLast),
     ("Non-Metal IOAccelerator Common", pg_non_metal_ioaccelerator_common os_major nm0 nmLast),
     ("Non-Metal CoreDisplay Common", pg_non_metal_coredisplay_common os_major nm0 nmLast),
     ("Non-Metal Enforcement", pg_non_metal_enforcement nm0 nmLast),
     ("Revert Non-Metal ColorSync Workaround", pg_revert_non_metal_colorsync_workaround),
     ("Metal Common", pg_metal_common),
     ("Revert Metal Downgrade", pg_revert_metal_downgrade),
     ("WebKit Monterey Common", pg_webkit_monterey_common),
     ("Metal 3802 Common", pg_metal_3802_common os_major),
     ("Metal 3802 Common Extended", pg_metal_3802_common_extended os_major os_float),
     ("Revert GVA Downgrade", pg_revert_gva_downgrade),
     ("Catalina GVA", pg_catalina_gva),
     ("Monterey GVA", pg_monterey_gva),
     ("High Sierra GVA", pg_high_sierra_gva nm0),
     ("Big Sur OpenCL", pg_big_sur_opencl),
     ("Monterey OpenCL", pg_monterey_opencl),
     ("AMD OpenCL", pg_amd_opencl),
     ("Nvidia Tesla", pg_nvidia_tesla os_float),
     ("Nvidia Kepler", pg_nvidia_kepler os_major os_float),
     ("Nvidia Web Drivers", pg_nvidia_web_drivers os_major),
     ("AMD TeraScale Common", pg_amd_terascale_common),
     ("AMD TeraScale 1", pg_amd_terascale_1 os_major),
     ("AMD TeraScale 2", pg_amd_terascale_2),
     ("AMD Legacy GCN", pg_amd_legacy_gcn os_major os_float),
     ("AMD Legacy GCN v2", pg_amd_legacy_gcn_v2),
     ("AMD Legacy Polaris", pg_amd_legacy_polaris os_major os_float),
     ("AMD Legacy Vega", pg_amd_legacy_vega os_major os_float),
     ("AMD Legacy Vega Extended", pg_amd_legacy_vega_extended),
     ("Intel Ironlake", pg_intel_ironlake),
     ("Intel Sandy Bridge", pg_intel_sandy_bridge),
     ("Intel Ivy Bridge", pg_intel_ivy_bridge os_major os_float),
     ("Intel Haswell", pg_intel_haswell os_major os_float),
     ("Intel Broadwell", pg_intel_broadwell os_major os_float),
     ("Intel Skylake", pg_intel_skylake os_major os_float)]),
   ("Audio",
    [("Legacy Realtek", pg_legacy_realtek),
     ("Legacy Non-GOP", pg_legacy_non_gop)]),
   ("Networking",
    [("Legacy Wireless", pg_legacy_wireless os_major affected_by_cve),
     ("Legacy Wireless Extended", pg_legacy_wireless_extended),
     ("Modern Wireless", pg_modern_wireless os_major)]),
   ("Brightness",
    [("Legacy Backlight Control", pg_legacy_backlight_control)]),
   ("Miscellaneous",
    [("Legacy GMUX", pg_legacy_gmux),
     ("Legacy Keyboard Backlight", pg_legacy_keyboard_backlight nm0 nmLast),
     ("Legacy USB 1.1", pg_legacy_usb_1_1 os_float),
     ("Legacy USB 1.1 Extended", pg_legacy_usb_1_1_extended),
     ("PCIe FaceTime Camera", pg_pcie_facetime_camera),
     ("T1 Security Chip", pg_t1_security_chip os_major)])]

/-- `SystemPatchDictionary.__init__` (lines 55-84): computes the CVE flag
first (so a malformed marketing version raises `InvalidVersion` there), then
generates the dictionary, whose first group reads
`non_metal_os_support[0]` and `[-1]` unconditionally — on an empty list that
raises `IndexError`.  The result is `self.patchset_dict`. -/
def SystemPatchDictionary (os_major os_minor : ℕ) (non_metal_os_support : List ℕ)
    (marketing_version : String) :
    Except PyError (List (String × List (String × PatchGroup))) :=
  match is_affect_by_cve_2024_23227 os_major marketing_version with
  | .error e => .error e
  | .ok affected =>
    match non_metal_os_support.head?, non_metal_os_support.getLast? with
    | some nm0, some nmLast =>
      .ok (sys_patch_dict os_major os_minor nm0 nmLast affected)
    | _, _ => .error .indexError

/-
### Validation harness (`support/validation.py`)
-/

/-- The range test of `PatcherValidation._validate_root_patch_files`
(lines 127-130): the group is skipped (`continue`) iff
`host_os_float < patch_os_min_float or host_os_float > patch_os_max_float`;
it is selected otherwise.  `host_float` is `float(f"{major}.{minor}")`. -/
def group_in_range (host_float : ℚ) (g : PatchGroup) : Prop :=
  ¬(host_float < pyFloat g.os_support.min_major g.os_support.min_minor ∨
    pyFloat g.os_support.max_major g.os_support.max_minor < host_float)

instance (host_float : ℚ) (g : PatchGroup) : Decidable (group_in_range host_float g) := by
  unfold group_in_range; infer_instance

/-- The expected source paths built by `_validate_root_patch_files`
(lines 131-135), in traversal order: for every selected group, for
`"Install"` then `"Install Non-Root"`, for every directory and file,
`str(payload_root) + "/" + source_tag + install_directory + "/" + file`. -/
def patch_install_paths (payload_root : String) (host_float : ℚ)
    (patchset : List (String × List (String × PatchGroup))) : List String :=
  patchset.flatMap fun patch_subject =>
    patch_subject.2.flatMap fun patch_core =>
      if group_in_range host_float patch_core.2 then
        (patch_core.2.install ++ patch_core.2.install_non_root).flatMap fun dir =>
          dir.2.map fun file => payload_root ++ "/" ++ file.2 ++ dir.1 ++ "/" ++ file.1
      else []

/-- The existence check of `_validate_root_patch_files` (lines 136-138):
scan the built paths in order; at the first path where `Path(...).exists()`
is false, raise `Exception(f"Failed to find {source_file}")` — modelled as
`.error` carrying the missing path — checking nothing further. -/
def check_files (file_exists : String → Bool) : List String → Except String Unit
  | [] => .ok ()
  | p :: ps => if file_exists p then check_files file_exists ps else .error p

/-- `_validate_root_patch_files` (lines 113-147), restricted to its file
cross-validation phase (the trailing patchset-plist generation is delegated
to an external helper and out of scope).  `file_exists` is the filesystem
oracle for `Path(...).exists()`. -/
def validate_root_patch_files (payload_root : String) (major_kernel minor_kernel : ℕ)
    (patchset : List (String × List (String × PatchGroup)))
    (file_exists : String → Bool) : Except String Unit :=
  check_files file_exists
    (patch_install_paths payload_root (pyFloat major_kernel minor_kernel) patchset)

/-- Python's substring test `a in b`, on character lists. -/
def isInfixB : List Char → List Char → Bool
  | needle, [] => needle.isEmpty
  | needle, c :: rest => needle.isPrefixOf (c :: rest) || isInfixB needle rest

/-- Python `a in b` on strings. -/
def is_substring (a b : String) : Bool := isInfixB a.data b.data

/-- `PurePath.name`: the final path component (the characters after the last
separator). -/
def path_name (rel : String) : String :=
  String.mk (rel.data.foldl (fun acc c => if c = '/' then [] else acc ++ [c]) [])

/-- `Path(file).relative_to(root)` for a `file` lying under `root`:
drops `root` plus the separator. -/
def relative_to (root file : String) : String :=
  String.mk (file.data.drop (root.data.length + 1))

/-- `PatcherValidation._find_unused_files` (lines 240-281).  `tree` is the
list of files below the payload root produced by `rglob("*")` (directories
already skipped), `active_patchset_files` the recorded used paths (absolute,
under the same root).  Mirrors the early return on an empty used list, the
housekeeping exclusions, and the two-way substring test against every used
path. -/
def find_unused_files (payload_root : String) (tree : List String)
    (active_patchset_files : List String) : List String :=
  if active_patchset_files = [] then []
  else
    tree.filterMap fun file =>
      let rel := relative_to payload_root file
      if path_name rel = ".DS_Store" then none
      else if rel = ".fseventsd/fseventsd-uuid" ∨ rel = ".signed" then none
      else if active_patchset_files.any fun used_file =>
          is_substring rel (relative_to payload_root used_file) ||
          is_substring (relative_to payload_root used_file) rel
      then none
      else some rel

/-
### `_validate_sys_patch` control flow (lines 150-237)

Modelled as a deterministic trace over an environment of external outcomes:
filesystem state at entry and the success of each external call (download,
`hdiutil detach`/`attach`, per-version validation).  The trace records the
side-effecting steps in program order; the result is the first exception
raised, if any.
-/

inductive VEvent
  | download
  | removeStaleOverlay
  | detachStale
  | attach
  | validateFiles (major minor : ℕ)
  | snbBoardIdPatch
  | findUnused
  | detach
  | removeOverlay
deriving DecidableEq, Repr

inductive VError
  | downloadFailed
  | unmountFailed
  | mountFailed
  | validationFailed (major minor : ℕ)
deriving DecidableEq, Repr

structure VEnv where
  dmgPresent : Bool
  overlayPresent : Bool
  mountPresent : Bool
  downloadOk : Bool
  detachStaleOk : Bool
  attachOk : Bool
  validateOk : ℕ → ℕ → Bool
  detachOk : Bool
  verifyUnusedFiles : Bool

/-- The version matrix of lines 206-208: each supported major crossed with
minors `0..9`, in loop order. -/
def validationMatrix : List (ℕ × ℕ) :=
  [os_data.big_sur, os_data.monterey, os_data.ventura, os_data.sonoma].flatMap
    fun supported_os => (List.range 10).map fun i => (supported_os, i)

/-- The loop of lines 206-208: run `_validate_root_patch_files` on each pair;
the first failure raises and aborts the loop. -/
def runValidateLoop (ok : ℕ → ℕ → Bool) : List (ℕ × ℕ) → List VEvent × Except VError Unit
  | [] => ([], .ok ())
  | (major, minor) :: rest =>
    if ok major minor then
      let r := runValidateLoop ok rest
      (.validateFiles major minor :: r.1, r.2)
    else ([.validateFiles major minor], .error (.validationFailed major minor))

/-- `_validate_sys_patch` (lines 150-237), straight-line translation.  Note
there is no `try/finally` in the source: the final `hdiutil detach` and
shadow-overlay removal (lines 217-237) are reached only when every
intermediate step succeeded. -/
def validate_sys_patch (env : VEnv) : List VEvent × Except VError Unit :=
  let dl : List VEvent := if env.dmgPresent then [] else [.download]
  if !env.dmgPresent && !env.downloadOk then (dl, .error .downloadFailed)
  else
    let pre1 : List VEvent := if env.overlayPresent then [.removeStaleOverlay] else []
    let pre2 : List VEvent := if env.mountPresent then [.detachStale] else []
    if env.mountPresent && !env.detachStaleOk then
      (dl ++ pre1 ++ pre2, .error .unmountFailed)
    else if !env.attachOk then
      (dl ++ pre1 ++ pre2 ++ [.attach], .error .mountFailed)
    else
      let v := runValidateLoop env.validateOk validationMatrix
      match v.2 with
      | .error e => (dl ++ pre1 ++ pre2 ++ [.attach] ++ v.1, .error e)
      | .ok _ =>
        let post : List VEvent :=
          [.snbBoardIdPatch] ++ (if env.verifyUnusedFiles then [.findUnused] else [])
        if !env.detachOk then
          (dl ++ pre1 ++ pre2 ++ [.attach] ++ v.1 ++ post ++ [.detach],
           .error .unmountFailed)
        else
          (dl ++ pre1 ++ pre2 ++ [.attach] ++ v.1 ++ post ++ [.detach, .removeOverlay],
           .ok ())

/-- Lexicographic comparison of kernel `(major, minor)` version pairs:
`(a, b) <= (c, d)`.  This is the claim language's two-component version
order. -/
def lexLe (a b c d : ℕ) : Prop := a < c ∨ (a = c ∧ b ≤ d)

instance (a b c d : ℕ) : Decidable (lexLe a b c d) := by
  unfold lexLe; infer_instance

/-
### Helper lemmas about the decimal-float model
-/

theorem decimalDigits_single {b : ℕ} (hb : b ≤ 9) : decimalDigits b = 1 := by
  interval_cases b <;> rfl

theorem decimalDigits_99 : decimalDigits 99 = 2 := rfl

theorem pyFloat_single {a b : ℕ} (hb : b ≤ 9) :
    pyFloat a b = (a : ℚ) + (b : ℚ) / 10 := by
  rw [pyFloat, decimalDigits_single hb, pow_one]

theorem pyFloat_99 (a : ℕ) : pyFloat a 99 = (a : ℚ) + 99 / 100 := by
  rw [pyFloat, decimalDigits_99]; norm_num

theorem pyFloat_le_pyFloat_single {a b c d : ℕ} (hb : b ≤ 9) (hd : d ≤ 9) :
    pyFloat a b ≤ pyFloat c d ↔ 10 * a + b ≤ 10 * c + d := by
  rw [pyFloat_single hb, pyFloat_single hd]
  constructor
  · intro h
    by_contra hc
    push_neg at hc
    have hc' : (10 * c + d : ℚ) < (10 * a + b : ℚ) := by exact_mod_cast hc
    push_cast at hc'
    linarith
  · intro h
    have h' : (10 * a + b : ℚ) ≤ (10 * c + d : ℚ) := by exact_mod_cast h
    push_cast at h'
    linarith

theorem pyFloat_le_pyFloat_99 {a b c : ℕ} (hb : b ≤ 9) :
    pyFloat a b ≤ pyFloat c 99 ↔ a ≤ c := by
  rw [pyFloat_single hb, pyFloat_99]
  have hbq : (b : ℚ) ≤ 9 := by exact_mod_cast hb
  constructor
  · intro h
    by_contra hc
    push_neg at hc
    have hc' : (c : ℚ) + 1 ≤ (a : ℚ) := by exact_mod_cast hc
    linarith
  · intro h
    have h' : (a : ℚ) ≤ (c : ℚ) := by exact_mod_cast h
    linarith

theorem pyFloat_lt_macOS_14_4 {a b : ℕ} (hb : b ≤ 9) :
    pyFloat a b < macOS_14_4 ↔ 10 * a + b < 234 := by
  rw [pyFloat_single hb, macOS_14_4]
  constructor
  · intro h
    by_contra hc
    push_neg at hc
    have hc' : (234 : ℚ) ≤ (10 * a + b : ℚ) := by exact_mod_cast hc
    push_cast at hc'
    norm_num at h
    linarith
  · intro h
    have h' : (10 * a + b : ℚ) < 234 := by exact_mod_cast h
    push_cast at h'
    norm_num
    linarith

/-
### C1 — the CVE-affected predicate
-/

/-- C1, counterexample.  The claim states that for any major other than the
three fixed majors 21, 22, 23 the predicate returns false, and that on major
21 the floor is 12.7.4.  The code instead selects the floor by the marketing
version's string prefix: major 20 (not a fixed major) with `"12.7.4"` yields
`true`, and major 21 with `"13.6.4"` (parsed 13.6.4 >= the claimed floor
12.7.4) yields `false` because the code compares against 13.6.5. -/
theorem cve_floor_selected_by_prefix_not_major :
    is_affect_by_cve_2024_23227 20 "12.7.4" = .ok true ∧
    is_affect_by_cve_2024_23227 21 "13.6.4" = .ok false := by
  constructor <;> decide

/-- C1 (amended): the predicate is a pure function of
`(kernelMajor, marketingVersion)`; every major strictly above Sonoma yields
`true` regardless of marketing version; for majors at or below Sonoma the
result is independent of the major and determined by the marketing version
alone: the parsed version is compared against floor 12.7.4, 13.6.5 or 14.4
according to whether the string starts with `"12"`, `"13"` or `"14"`
(tested in that order), and any other prefix yields `false` (not affected).
In particular major 21 with `"12.7.4"` gives `true` and with `"12.7.3"`
gives `false`. -/
theorem cve_predicate_characterization (os_major : ℕ) (mv : String)
    (parsed : List ℕ) :
    (os_data.sonoma < os_major →
      is_affect_by_cve_2024_23227 os_major mv = .ok true) ∧
    (os_major ≤ os_data.sonoma → parseDottedVersion mv = some parsed →
      (pyStartswith mv "12" = true →
        is_affect_by_cve_2024_23227 os_major mv = .ok (releaseLe [12, 7, 4] parsed)) ∧
      (pyStartswith mv "12" = false → pyStartswith mv "13" = true →
        is_affect_by_cve_2024_23227 os_major mv = .ok (releaseLe [13, 6, 5] parsed)) ∧
      (pyStartswith mv "12" = false → pyStartswith mv "13" = false →
          pyStartswith mv "14" = true →
        is_affect_by_cve_2024_23227 os_major mv = .ok (releaseLe [14, 4] parsed)) ∧
      (pyStartswith mv "12" = false → pyStartswith mv "13" = false →
          pyStartswith mv "14" = false →
        is_affect_by_cve_2024_23227 os_major mv = .ok false)) ∧
    (is_affect_by_cve_2024_23227 21 "12.7.4" = .ok true ∧
     is_affect_by_cve_2024_23227 21 "12.7.3" = .ok false) := by
  refine ⟨?_, ?_, by decide, by decide⟩
  · intro h
    simp [is_affect_by_cve_2024_23227, h]
  · intro hle hp
    have hnot : ¬ os_data.sonoma < os_major := by omega
    refine ⟨?_, ?_, ?_, ?_⟩ <;> intro h12
    · simp [is_affect_by_cve_2024_23227, hnot, hp, h12]
    · intro h13
      simp [is_affect_by_cve_2024_23227, hnot, hp, h12, h13]
    · intro h13 h14
      simp [is_affect_by_cve_2024_23227, hnot, hp, h12, h13, h14]
    · intro h13 h14
      simp [is_affect_by_cve_2024_23227, hnot, hp, h12, h13, h14]

/-- C1, witness: the theorem at major 21, marketing version `"12.7.4"`. -/
theorem cve_predicate_characterization_witness :
    (21 ≤ os_data.sonoma ∧ parseDottedVersion "12.7.4" = some [12, 7, 4] ∧
      pyStartswith "12.7.4" "12" = true) ∧
    is_affect_by_cve_2024_23227 21 "12.7.4" = .ok (releaseLe [12, 7, 4] [12, 7, 4]) :=
  ⟨⟨by decide, by decide, by decide⟩,
   (((cve_predicate_characterization 21 "12.7.4" [12, 7, 4]).2.1
      (by decide) (by decide)).1 (by decide))⟩

/-
### C2 — totality / failure semantics of the CVE predicate
-/

/-- C2, counterexample.  The claim states the predicate returns a boolean on
every input, treating a malformed marketing version as "not affected" rather
than raising.  With kernel major 21 (at or below Sonoma, so the parse is
reached), the marketing version `"foo"` makes `packaging.version.parse`
raise `InvalidVersion`, which propagates: no boolean is returned. -/
theorem cve_predicate_raises_on_malformed :
    is_affect_by_cve_2024_23227 21 "foo" = .error .invalidVersion ∧
    is_affect_by_cve_2024_23227 21 "foo" ≠ .ok false ∧
    is_affect_by_cve_2024_23227 21 "foo" ≠ .ok true := by
  refine ⟨by decide, by decide, by decide⟩

/-- C2 (amended): the predicate returns a boolean for every input whose
marketing version parses as a dotted version (and for every input with major
above Sonoma, where the parse is skipped); a marketing version that fails to
parse, reached because the major is at or below Sonoma, raises
`InvalidVersion` (the exception propagates) instead of being treated as not
affected. -/
theorem cve_predicate_total_on_parseable (os_major : ℕ) (mv : String) :
    ((∃ parsed, parseDottedVersion mv = some parsed) ∨ os_data.sonoma < os_major →
      ∃ b, is_affect_by_cve_2024_23227 os_major mv = .ok b) ∧
    (os_major ≤ os_data.sonoma → parseDottedVersion mv = none →
      is_affect_by_cve_2024_23227 os_major mv = .error .invalidVersion) := by
  constructor
  · rintro (⟨parsed, hp⟩ | hgt)
    · by_cases hgt : os_data.sonoma < os_major
      · exact ⟨true, by simp [is_affect_by_cve_2024_23227, hgt]⟩
      · unfold is_affect_by_cve_2024_23227
        rw [if_neg hgt, hp]
        by_cases h12 : pyStartswith mv "12" <;>
          by_cases h13 : pyStartswith mv "13" <;>
          by_cases h14 : pyStartswith mv "14" <;>
          simp [h12, h13, h14]
    · exact ⟨true, by simp [is_affect_by_cve_2024_23227, hgt]⟩
  · intro hle hp
    have hnot : ¬ os_data.sonoma < os_major := by omega
    unfold is_affect_by_cve_2024_23227
    rw [if_neg hnot, hp]

/-- C2, witness: the theorem at major 21 with the parseable `"12.7.3"` and
the malformed `"foo"`. -/
theorem cve_predicate_total_on_parseable_witness :
    (parseDottedVersion "12.7.3" = some [12, 7, 3] ∧
      (∃ b, is_affect_by_cve_2024_23227 21 "12.7.3" = .ok b)) ∧
    (21 ≤ os_data.sonoma ∧ parseDottedVersion "foo" = none ∧
      is_affect_by_cve_2024_23227 21 "foo" = .error .invalidVersion) :=
  ⟨⟨by decide,
    (cve_predicate_total_on_parseable 21 "12.7.3").1 (Or.inl ⟨[12, 7, 3], by decide⟩)⟩,
   ⟨by decide, by decide,
    (cve_predicate_total_on_parseable 21 "foo").2 (by decide) (by decide)⟩⟩

/-
### C4 — the framebuffer resolver ladder
-/

/-- C4, counterexample.  The claim's middle/upper tiers are separated by the
two-component comparison `(kernelMajor, kernelMinor) >= (23, 4)`.  At kernel
`23.10` the pair comparison puts the context in the upper tier (expected tag
`"11.7.10-23.4"`), but the code compares `float("23.10") = 23.1 < 23.4` and
returns the middle-tier tag `"11.7.10-23"`. -/
theorem ivy_ladder_pair_comparison_fails_at_minor_ten :
    resolve_ivy_bridge_framebuffers 23 (pyFloat 23 10) = "11.7.10-23" ∧
    lexLe 23 4 23 10 ∧
    ("11.7.10-23" : String) ≠ "11.7.10-23.4" := by
  refine ⟨?_, by decide, by decide⟩
  have h2 : decimalDigits 10 = 2 := rfl
  have h : pyFloat 23 10 < macOS_14_4 := by
    rw [pyFloat, h2, macOS_14_4]; norm_num
  simp [resolve_ivy_bridge_framebuffers, os_data.sonoma, h]

/-- C4 (amended): for every context whose `kernelMinor` is a single decimal
digit (0-9), each of the three framebuffer resolvers implements the 3-tier
ladder: below the Sonoma major it returns the family's base tag; at or above
Sonoma with `(kernelMajor, kernelMinor)` below `(23, 4)` it returns the base
tag suffixed `-23`; at or above `(23, 4)` it returns the base tag suffixed
`-23.4`.  (For `kernelMinor >= 10` the code's decimal-concatenation float
comparison diverges from the pair comparison, see the counterexample.)  In
particular, for the Ivy Bridge family, kernel `21.0` gives `"11.7.10"`,
kernel `23.1` gives `"11.7.10-23"` and kernel `23.4` gives
`"11.7.10-23.4"`. -/
theorem framebuffer_ladder_single_digit (os_major os_minor : ℕ)
    (h9 : os_minor ≤ 9) :
    (os_major < os_data.sonoma →
      resolve_ivy_bridge_framebuffers os_major (pyFloat os_major os_minor) = "11.7.10" ∧
      resolve_kepler_geforce_framebuffers os_major (pyFloat os_major os_minor) = "12.0 Beta 6" ∧
      resolve_monterey_framebuffers os_major (pyFloat os_major os_minor) = "12.5") ∧
    (os_data.sonoma ≤ os_major → ¬ lexLe 23 4 os_major os_minor →
      resolve_ivy_bridge_framebuffers os_major (pyFloat os_major os_minor) = "11.7.10-23" ∧
      resolve_kepler_geforce_framebuffers os_major (pyFloat os_major os_minor) = "12.0 Beta 6-23" ∧
      resolve_monterey_framebuffers os_major (pyFloat os_major os_minor) = "12.5-23") ∧
    (os_data.sonoma ≤ os_major → lexLe 23 4 os_major os_minor →
      resolve_ivy_bridge_framebuffers os_major (pyFloat os_major os_minor) = "11.7.10-23.4" ∧
      resolve_kepler_geforce_framebuffers os_major (pyFloat os_major os_minor) = "12.0 Beta 6-23.4" ∧
      resolve_monterey_framebuffers os_major (pyFloat os_major os_minor) = "12.5-23.4") ∧
    (resolve_ivy_bridge_framebuffers 21 (pyFloat 21 0) = "11.7.10" ∧
     resolve_ivy_bridge_framebuffers 23 (pyFloat 23 1) = "11.7.10-23" ∧
     resolve_ivy_bridge_framebuffers 23 (pyFloat 23 4) = "11.7.10-23.4") := by
  have hlt := pyFloat_lt_macOS_14_4 (a := os_major) h9
  refine ⟨?_, ?_, ?_, ?_, ?_, ?_⟩
  · intro h
    exact ⟨by unfold resolve_ivy_bridge_framebuffers; rw [if_pos h],
           by unfold resolve_kepler_geforce_framebuffers; rw [if_pos h],
           by unfold resolve_monterey_framebuffers; rw [if_pos h]⟩
  · intro hge hpair
    unfold lexLe at hpair
    have hmaj : os_major = 23 ∧ os_minor < 4 := by
      unfold os_data.sonoma at hge; omega
    have hf : pyFloat os_major os_minor < macOS_14_4 := hlt.mpr (by omega)
    have hns : ¬ os_major < os_data.sonoma := by unfold os_data.sonoma; omega
    simp [resolve_ivy_bridge_framebuffers, resolve_kepler_geforce_framebuffers,
      resolve_monterey_framebuffers, hns, hf]
  · intro hge hpair
    unfold lexLe at hpair
    have hf : ¬ pyFloat os_major os_minor < macOS_14_4 := by
      rw [hlt]; unfold os_data.sonoma at hge; omega
    have hns : ¬ os_major < os_data.sonoma := by unfold os_data.sonoma; omega
    simp [resolve_ivy_bridge_framebuffers, resolve_kepler_geforce_framebuffers,
      resolve_monterey_framebuffers, hns, hf]
  · have h : (21 : ℕ) < os_data.sonoma := by decide
    simp [resolve_ivy_bridge_framebuffers, h]
  · have hf : pyFloat 23 1 < macOS_14_4 := (pyFloat_lt_macOS_14_4 (by norm_num)).mpr (by norm_num)
    simp [resolve_ivy_bridge_framebuffers, os_data.sonoma, hf]
  · have hf : ¬ pyFloat 23 4 < macOS_14_4 := by
      rw [pyFloat_lt_macOS_14_4 (by norm_num)]; norm_num
    simp [resolve_ivy_bridge_framebuffers, os_data.sonoma, hf]

/-- C4, witness: the theorem's middle tier at kernel `23.1`. -/
theorem framebuffer_ladder_single_digit_witness :
    ((1 : ℕ) ≤ 9 ∧ os_data.sonoma ≤ 23 ∧ ¬ lexLe 23 4 23 1) ∧
    resolve_ivy_bridge_framebuffers 23 (pyFloat 23 1) = "11.7.10-23" :=
  ⟨⟨by decide, by decide, by decide⟩,
   ((framebuffer_ladder_single_digit 23 1 (by decide)).2.1
      (by decide) (by decide)).1⟩


/-
### C3 — resource cleanup in `_validate_sys_patch`
-/

theorem runValidateLoop_events (ok : ℕ → ℕ → Bool) (l : List (ℕ × ℕ)) :
    ∀ e ∈ (runValidateLoop ok l).1, ∃ m i, e = .validateFiles m i := by
  induction l with
  | nil => intro e he; simp [runValidateLoop] at he
  | cons p rest ih =>
    intro e he
    rcases p with ⟨m, i⟩
    by_cases h : ok m i
    · simp only [runValidateLoop, h, if_true, List.mem_cons] at he
      rcases he with rfl | he
      · exact ⟨m, i, rfl⟩
      · exact ih e he
    · simp only [runValidateLoop, h, if_false, List.mem_singleton, Bool.false_eq_true] at he
      exact ⟨m, i, he⟩

theorem runValidateLoop_error_ok_false (ok : ℕ → ℕ → Bool) (l : List (ℕ × ℕ))
    (maj mi : ℕ) :
    (runValidateLoop ok l).2 = .error (.validationFailed maj mi) →
      ok maj mi = false := by
  induction l with
  | nil => intro h; simp [runValidateLoop] at h
  | cons p rest ih =>
    rcases p with ⟨m, i⟩
    intro h
    by_cases hok : ok m i
    · simp only [runValidateLoop, hok, if_true] at h
      exact ih h
    · simp only [runValidateLoop, hok, if_false, Bool.false_eq_true] at h
      rw [Except.error.injEq, VError.validationFailed.injEq] at h
      obtain ⟨rfl, rfl⟩ := h
      simpa using hok

/-- C3, counterexample.  An execution that reaches a successful mount and then
fails per-version cross-validation: with the payload image present, nothing
stale mounted, the attach succeeding, and `_validate_root_patch_files`
raising on the first matrix entry, the run propagates the validation failure
but its trace contains no detach and no shadow-overlay removal after the
mount — the cleanup of lines 217-237 is unreachable on this exit path. -/
theorem unmount_skipped_on_validation_failure :
    (validate_sys_patch
        ⟨true, false, false, true, true, true, fun _ _ => false, true, false⟩).2 =
      .error (.validationFailed os_data.big_sur 0) ∧
    VEvent.attach ∈
      (validate_sys_patch
        ⟨true, false, false, true, true, true, fun _ _ => false, true, false⟩).1 ∧
    VEvent.detach ∉
      (validate_sys_patch
        ⟨true, false, false, true, true, true, fun _ _ => false, true, false⟩).1 ∧
    VEvent.removeOverlay ∉
      (validate_sys_patch
        ⟨true, false, false, true, true, true, fun _ _ => false, true, false⟩).1 := by
  refine ⟨by decide, by decide, by decide, by decide⟩

/-- C3 (amended): after a successful mount, the detach and the shadow-overlay
removal are executed only on the fully successful exit path; when per-version
cross-validation raises, the original failure is propagated unchanged, but no
unmount is attempted on that path (stale mounts and overlays are instead
cleaned up at the start of the next run, lines 164-184). -/
theorem sys_patch_cleanup_characterization (env : VEnv) :
    ((validate_sys_patch env).2 = .ok () →
      VEvent.attach ∈ (validate_sys_patch env).1 ∧
      VEvent.detach ∈ (validate_sys_patch env).1 ∧
      VEvent.removeOverlay ∈ (validate_sys_patch env).1) ∧
    (∀ major minor,
      (validate_sys_patch env).2 = .error (.validationFailed major minor) →
        env.validateOk major minor = false ∧
        VEvent.attach ∈ (validate_sys_patch env).1 ∧
        VEvent.detach ∉ (validate_sys_patch env).1 ∧
        VEvent.removeOverlay ∉ (validate_sys_patch env).1) := by
  have hev := runValidateLoop_events env.validateOk validationMatrix
  have herr := runValidateLoop_error_ok_false env.validateOk validationMatrix
  have hdl : ∀ e : VEvent,
      e ∈ (if env.dmgPresent then ([] : List VEvent) else [.download]) →
        e = .download := by
    split <;> simp
  have hpre1 : ∀ e : VEvent,
      e ∈ (if env.overlayPresent then [VEvent.removeStaleOverlay] else ([] : List VEvent)) →
        e = .removeStaleOverlay := by
    split <;> simp
  have hpre2 : ∀ e : VEvent,
      e ∈ (if env.mountPresent then [VEvent.detachStale] else ([] : List VEvent)) →
        e = .detachStale := by
    split <;> simp
  by_cases h1 : (!env.dmgPresent && !env.downloadOk) = true
  · have hR : validate_sys_patch env =
        ((if env.dmgPresent then [] else [.download]), .error .downloadFailed) := by
      simp [validate_sys_patch, h1]
    rw [hR]
    exact ⟨fun h => by simp at h, fun major minor h => by simp at h⟩
  · by_cases h2 : (env.mountPresent && !env.detachStaleOk) = true
    · have hR : validate_sys_patch env =
          ((if env.dmgPresent then [] else [.download]) ++
            (if env.overlayPresent then [.removeStaleOverlay] else []) ++
            (if env.mountPresent then [.detachStale] else []),
           .error .unmountFailed) := by
        simp [validate_sys_patch, h1, h2]
      rw [hR]
      exact ⟨fun h => by simp at h, fun major minor h => by simp at h⟩
    · by_cases h3 : (!env.attachOk) = true
      · have hR : validate_sys_patch env =
            ((if env.dmgPresent then [] else [.download]) ++
              (if env.overlayPresent then [.removeStaleOverlay] else []) ++
              (if env.mountPresent then [.detachStale] else []) ++ [.attach],
             .error .mountFailed) := by
          simp [validate_sys_patch, h1, h2, h3]
        rw [hR]
        exact ⟨fun h => by simp at h, fun major minor h => by simp at h⟩
      · cases hv : (runValidateLoop env.validateOk validationMatrix).2 with
        | error e =>
          have hR : validate_sys_patch env =
              ((if env.dmgPresent then [] else [.download]) ++
                (if env.overlayPresent then [.removeStaleOverlay] else []) ++
                (if env.mountPresent then [.detachStale] else []) ++ [.attach] ++
                (runValidateLoop env.validateOk validationMatrix).1,
               .error e) := by
            simp [validate_sys_patch, h1, h2, h3, hv]
          rw [hR]
          constructor
          · intro h; simp at h
          · intro major minor h
            rw [Except.error.injEq] at h
            subst h
            refine ⟨herr _ _ hv, by simp [List.mem_append], ?_, ?_⟩
            · intro hmem
              simp only [List.mem_append, List.mem_singleton] at hmem
              rcases hmem with (((hm | hm) | hm) | hm) | hm
              · cases hdl _ hm
              · cases hpre1 _ hm
              · cases hpre2 _ hm
              · cases hm
              · obtain ⟨m, i, hh⟩ := hev _ hm
                cases hh
            · intro hmem
              simp only [List.mem_append, List.mem_singleton] at hmem
              rcases hmem with (((hm | hm) | hm) | hm) | hm
              · cases hdl _ hm
              · cases hpre1 _ hm
              · cases hpre2 _ hm
              · cases hm
              · obtain ⟨m, i, hh⟩ := hev _ hm
                cases hh
        | ok u =>
          by_cases h4 : (!env.detachOk) = true
          · have hR : validate_sys_patch env =
                ((if env.dmgPresent then [] else [.download]) ++
                  (if env.overlayPresent then [.removeStaleOverlay] else []) ++
                  (if env.mountPresent then [.detachStale] else []) ++ [.attach] ++
                  (runValidateLoop env.validateOk validationMatrix).1 ++
                  ([.snbBoardIdPatch] ++
                    (if env.verifyUnusedFiles then [.findUnused] else [])) ++
                  [.detach],
                 .error .unmountFailed) := by
              simp [validate_sys_patch, h1, h2, h3, hv, h4]
            rw [hR]
            exact ⟨fun h => by simp at h, fun major minor h => by simp at h⟩
          · have hR : validate_sys_patch env =
                ((if env.dmgPresent then [] else [.download]) ++
                  (if env.overlayPresent then [.removeStaleOverlay] else []) ++
                  (if env.mountPresent then [.detachStale] else []) ++ [.attach] ++
                  (runValidateLoop env.validateOk validationMatrix).1 ++
                  ([.snbBoardIdPatch] ++
                    (if env.verifyUnusedFiles then [.findUnused] else [])) ++
                  [.detach, .removeOverlay],
                 .ok ()) := by
              simp [validate_sys_patch, h1, h2, h3, hv, h4]
            rw [hR]
            exact ⟨fun _ => ⟨by simp [List.mem_append], by simp [List.mem_append],
                             by simp [List.mem_append]⟩,
                   fun major minor h => by simp at h⟩

/-- C3, witness: the theorem on a fully successful run. -/
theorem sys_patch_cleanup_characterization_witness :
    (validate_sys_patch
        ⟨true, false, false, true, true, true, fun _ _ => true, true, false⟩).2 = .ok () ∧
    (VEvent.attach ∈ (validate_sys_patch
        ⟨true, false, false, true, true, true, fun _ _ => true, true, false⟩).1 ∧
     VEvent.detach ∈ (validate_sys_patch
        ⟨true, false, false, true, true, true, fun _ _ => true, true, false⟩).1 ∧
     VEvent.removeOverlay ∈ (validate_sys_patch
        ⟨true, false, false, true, true, true, fun _ _ => true, true, false⟩).1) :=
  ⟨by decide,
   (sys_patch_cleanup_characterization
      ⟨true, false, false, true, true, true, fun _ _ => true, true, false⟩).1 (by decide)⟩

/-
### C5 / C6 — range selection and catalog range invariant
-/

theorem sorted_head_le_getLast {nm : List ℕ} {a b : ℕ}
    (h : nm.Sorted (· ≤ ·)) (h0 : nm.head? = some a) (hL : nm.getLast? = some b) :
    a ≤ b := by
  cases nm with
  | nil => cases h0
  | cons x l =>
    rw [List.head?_cons, Option.some.injEq] at h0
    subst h0
    have hb := List.mem_of_getLast?_eq_some hL
    rcases List.mem_cons.mp hb with rfl | hbl
    · exact le_refl _
    · exact (List.sorted_cons.mp h).1 b hbl

/-- The float range test of `_validate_root_patch_files` agrees with the
lexicographic two-component comparison whenever the host minor and the
group's minimum minor are single decimal digits and the group's maximum
minor is 99 (as everywhere in the catalog). -/
theorem group_in_range_iff_lex (host_major host_minor : ℕ) (g : PatchGroup)
    (h9 : host_minor ≤ 9) (hmin : g.os_support.min_minor ≤ 9)
    (hmax : g.os_support.max_minor = 99) :
    group_in_range (pyFloat host_major host_minor) g ↔
      (lexLe g.os_support.min_major g.os_support.min_minor host_major host_minor ∧
       lexLe host_major host_minor g.os_support.max_major g.os_support.max_minor) := by
  unfold group_in_range lexLe
  rw [hmax, not_or, not_lt, not_lt,
    pyFloat_le_pyFloat_single hmin h9, pyFloat_le_pyFloat_99 h9]
  omega

set_option maxHeartbeats 1000000 in
/-- Shape facts holding for every group of the generated dictionary: the
minimum minor is a single digit, the maximum minor is 99, and (given
`nm0 <= nmLast`, from the sortedness of the non-metal list, and
`nm0 <= max_os`, from its members being supported majors) the minimum does
not exceed the maximum. -/
theorem sys_patch_dict_support_facts (os_major os_minor nm0 nmLast : ℕ) (aff : Bool) :
    ∀ c ∈ (sys_patch_dict os_major os_minor nm0 nmLast aff).flatMap (fun s => s.2),
      c.2.os_support.min_minor ≤ 9 ∧ c.2.os_support.max_minor = 99 ∧
      (nm0 ≤ nmLast → nm0 ≤ os_data.max_os →
        lexLe c.2.os_support.min_major c.2.os_support.min_minor
          c.2.os_support.max_major c.2.os_support.max_minor) := by
  intro c hc
  simp only [sys_patch_dict, List.flatMap_cons, List.flatMap_nil, List.append_nil,
    List.mem_append, List.mem_cons, List.not_mem_nil, or_false, or_assoc] at hc
  rcases hc with rfl|rfl|rfl|rfl|rfl|rfl|rfl|rfl|rfl|rfl|rfl|rfl|rfl|rfl|rfl|rfl|rfl|rfl|rfl|rfl|rfl|rfl|rfl|rfl|rfl|rfl|rfl|rfl|rfl|rfl|rfl|rfl|rfl|rfl|rfl|rfl|rfl|rfl|rfl|rfl|rfl|rfl|rfl|rfl|rfl|rfl <;>
    (dsimp only [pg_non_metal_common, pg_non_metal_ioaccelerator_common,
      pg_non_metal_coredisplay_common, pg_non_metal_enforcement,
      pg_revert_non_metal_colorsync_workaround, pg_metal_common,
      pg_revert_metal_downgrade, pg_webkit_monterey_common, pg_metal_3802_common,
      pg_metal_3802_common_extended, pg_revert_gva_downgrade, pg_catalina_gva,
      pg_monterey_gva, pg_high_sierra_gva, pg_big_sur_opencl, pg_monterey_opencl,
      pg_amd_opencl, pg_nvidia_tesla, pg_nvidia_kepler, pg_nvidia_web_drivers,
      pg_amd_terascale_common, pg_amd_terascale_1, pg_amd_terascale_2,
      pg_amd_legacy_gcn, pg_amd_legacy_gcn_v2, pg_amd_legacy_polaris,
      pg_amd_legacy_vega, pg_amd_legacy_vega_extended, pg_intel_ironlake,
      pg_intel_sandy_bridge, pg_intel_ivy_bridge, pg_intel_haswell,
      pg_intel_broadwell, pg_intel_skylake, pg_legacy_realtek, pg_legacy_non_gop,
      pg_legacy_wireless, pg_legacy_wireless_extended, pg_modern_wireless,
      pg_legacy_backlight_control, pg_legacy_gmux, pg_legacy_keyboard_backlight,
      pg_legacy_usb_1_1, pg_legacy_usb_1_1_extended, pg_pcie_facetime_camera,
      pg_t1_security_chip, os_data.sierra, os_data.high_sierra,
      os_data.mojave, os_data.catalina, os_data.big_sur, os_data.monterey,
      os_data.ventura, os_data.sonoma, os_data.max_os, lexLe]; omega)

/-- C5: for every target version whose kernel minor is a single decimal
digit, a catalog group is selected by `_validate_root_patch_files` (i.e. not
skipped by the range test) if and only if `(kernelMajor, kernelMinor)` lies
within `[minVersion, maxVersion]` inclusive at both ends, lexicographically
on major then minor. -/
theorem group_selection_iff_lex_in_range (os_major os_minor nm0 nmLast : ℕ)
    (aff : Bool) (h9 : os_minor ≤ 9) :
    ∀ s ∈ sys_patch_dict os_major os_minor nm0 nmLast aff, ∀ c ∈ s.2,
      (group_in_range (pyFloat os_major os_minor) c.2 ↔
        (lexLe c.2.os_support.min_major c.2.os_support.min_minor os_major os_minor ∧
         lexLe os_major os_minor c.2.os_support.max_major c.2.os_support.max_minor)) := by
  intro s hs c hc
  have hfacts := sys_patch_dict_support_facts os_major os_minor nm0 nmLast aff c
    (List.mem_flatMap.mpr ⟨s, hs, hc⟩)
  exact group_in_range_iff_lex os_major os_minor c.2 h9 hfacts.1 hfacts.2.1

/-- C5, witness: the theorem at target kernel `22.0` on the Brightness
group (range `(17, 0)` to `(23, 99)`). -/
theorem group_selection_iff_lex_in_range_witness :
    ((0 : ℕ) ≤ 9 ∧
     ("Brightness", [("Legacy Backlight Control", pg_legacy_backlight_control)]) ∈
       sys_patch_dict 22 0 20 22 false ∧
     ("Legacy Backlight Control", pg_legacy_backlight_control) ∈
       [("Legacy Backlight Control", pg_legacy_backlight_control)]) ∧
    (group_in_range (pyFloat 22 0) pg_legacy_backlight_control ↔
      (lexLe 17 0 22 0 ∧ lexLe 22 0 23 99)) :=
  ⟨⟨by decide, by simp [sys_patch_dict], by simp⟩,
   group_selection_iff_lex_in_range 22 0 20 22 false (by decide)
     ("Brightness", [("Legacy Backlight Control", pg_legacy_backlight_control)])
     (by simp [sys_patch_dict])
     ("Legacy Backlight Control", pg_legacy_backlight_control) (by simp)⟩

/-- C6: in every catalog built from a non-empty list of supported legacy
majors sorted ascending (elements are supported majors, hence at most
`max_os`), every group satisfies `minVersion <= maxVersion` lexicographically
on `(major, minor)`. -/
theorem catalog_min_le_max (os_major os_minor nm0 nmLast : ℕ) (nm : List ℕ)
    (_mv : String) (aff : Bool) (hsorted : nm.Sorted (· ≤ ·))
    (hsupported : ∀ x ∈ nm, x ≤ os_data.max_os)
    (h0 : nm.head? = some nm0) (hL : nm.getLast? = some nmLast) :
    ∀ s ∈ sys_patch_dict os_major os_minor nm0 nmLast aff, ∀ c ∈ s.2,
      lexLe c.2.os_support.min_major c.2.os_support.min_minor
        c.2.os_support.max_major c.2.os_support.max_minor := by
  have hle : nm0 ≤ nmLast := sorted_head_le_getLast hsorted h0 hL
  have hmem : nm0 ∈ nm := by
    cases nm with
    | nil => cases h0
    | cons x l =>
      rw [List.head?_cons, Option.some.injEq] at h0
      exact h0 ▸ List.mem_cons_self x l
  intro s hs c hc
  exact (sys_patch_dict_support_facts os_major os_minor nm0 nmLast aff c
    (List.mem_flatMap.mpr ⟨s, hs, hc⟩)).2.2 hle (hsupported nm0 hmem)

/-- C6, witness: the theorem for the catalog built at kernel `22.0` from
`[20, 21, 22]`, instantiated on the Brightness group. -/
theorem catalog_min_le_max_witness :
    (([20, 21, 22] : List ℕ).Sorted (· ≤ ·) ∧
     (∀ x ∈ ([20, 21, 22] : List ℕ), x ≤ os_data.max_os) ∧
     ([20, 21, 22] : List ℕ).head? = some 20 ∧
     ([20, 21, 22] : List ℕ).getLast? = some 22 ∧
     ("Brightness", [("Legacy Backlight Control", pg_legacy_backlight_control)]) ∈
       sys_patch_dict 22 0 20 22 false ∧
     ("Legacy Backlight Control", pg_legacy_backlight_control) ∈
       [("Legacy Backlight Control", pg_legacy_backlight_control)]) ∧
    lexLe 17 0 23 99 :=
  ⟨⟨by decide, by decide, by decide, by decide, by simp [sys_patch_dict], by simp⟩,
   catalog_min_le_max 22 0 20 22 [20, 21, 22] "13.0" false (by decide) (by decide)
     (by decide) (by decide)
     ("Brightness", [("Legacy Backlight Control", pg_legacy_backlight_control)])
     (by simp [sys_patch_dict])
     ("Legacy Backlight Control", pg_legacy_backlight_control) (by simp)⟩

/-
### C7 — fail-fast payload cross-validation
-/

theorem check_files_ok_of_all (file_exists : String → Bool) :
    ∀ l : List String, (∀ p ∈ l, file_exists p = true) →
      check_files file_exists l = .ok () := by
  intro l
  induction l with
  | nil => intro _; rfl
  | cons a t ih =>
    intro h
    show (if file_exists a then check_files file_exists t else .error a) = .ok ()
    rw [if_pos (h a (List.mem_cons_self a t))]
    exact ih fun p hp => h p (List.mem_cons_of_mem a hp)

theorem check_files_error_first (file_exists : String → Bool) :
    ∀ (l : List String) (p : String), check_files file_exists l = .error p →
      file_exists p = false ∧
      ∃ checked rest, l = checked ++ p :: rest ∧ ∀ q ∈ checked, file_exists q = true := by
  intro l
  induction l with
  | nil => intro p h; cases h
  | cons a t ih =>
    intro p h
    rw [show check_files file_exists (a :: t) =
        (if file_exists a then check_files file_exists t else .error a) from rfl] at h
    by_cases ha : file_exists a = true
    · rw [if_pos ha] at h
      obtain ⟨hp, checked, rest, heq, hall⟩ := ih p h
      exact ⟨hp, a :: checked, rest, by rw [heq, List.cons_append],
        fun q hq => (List.mem_cons.mp hq).elim (fun hq' => hq' ▸ ha) (hall q)⟩
    · rw [if_neg ha] at h
      rw [Except.error.injEq] at h
      subst h
      exact ⟨by simpa using ha, [], t, rfl, by simp⟩

theorem check_files_error_of_first (file_exists : String → Bool) :
    ∀ (checked : List String) (p : String) (rest : List String),
      (∀ q ∈ checked, file_exists q = true) → file_exists p = false →
      check_files file_exists (checked ++ p :: rest) = .error p := by
  intro checked
  induction checked with
  | nil =>
    intro p rest _ hp
    show (if file_exists p then check_files file_exists rest else .error p) = .error p
    rw [if_neg (by simp [hp])]
  | cons a t ih =>
    intro p rest hall hp
    show (if file_exists a then check_files file_exists (t ++ p :: rest) else .error a) =
      .error p
    rw [if_pos (hall a (List.mem_cons_self a t))]
    exact ih p rest (fun q hq => hall q (List.mem_cons_of_mem a hq)) hp

/-- C7: the file cross-validation of `_validate_root_patch_files` builds, for
every install entry (root and non-root) of every in-range group, the expected
source path `payloadRoot / sourceTag / installDirectory / filename` (in
traversal order `patch_install_paths`); when every built path exists the check
completes with no error; when it errors it names exactly the first missing
path in traversal order — every earlier path exists (was checked) and nothing
after the missing one is examined; and conversely, whenever some built path
is missing — the traversal order putting a missing path `p` after a prefix of
existing ones — the check does fail, with exactly `p` as the error. -/
theorem cross_validation_fail_fast (payload_root : String)
    (major_kernel minor_kernel : ℕ)
    (patchset : List (String × List (String × PatchGroup)))
    (file_exists : String → Bool) :
    ((∀ p ∈ patch_install_paths payload_root (pyFloat major_kernel minor_kernel) patchset,
        file_exists p = true) →
      validate_root_patch_files payload_root major_kernel minor_kernel patchset
        file_exists = .ok ()) ∧
    (∀ p,
      validate_root_patch_files payload_root major_kernel minor_kernel patchset
          file_exists = .error p →
      file_exists p = false ∧
      ∃ checked rest,
        patch_install_paths payload_root (pyFloat major_kernel minor_kernel) patchset =
          checked ++ p :: rest ∧
        ∀ q ∈ checked, file_exists q = true) ∧
    (∀ p checked rest,
      patch_install_paths payload_root (pyFloat major_kernel minor_kernel) patchset =
        checked ++ p :: rest →
      (∀ q ∈ checked, file_exists q = true) →
      file_exists p = false →
      validate_root_patch_files payload_root major_kernel minor_kernel patchset
        file_exists = .error p) :=
  ⟨fun h => check_files_ok_of_all file_exists _ h,
   fun p h => check_files_error_first file_exists _ p h,
   fun p checked rest heq hall hp => by
    unfold validate_root_patch_files
    rw [heq]
    exact check_files_error_of_first file_exists checked p rest hall hp⟩

/-- C7, witness: the theorem on the full catalog at kernel `22.0` against an
oracle on which every path exists (success branch), and on a one-entry
patchset against the all-missing oracle, where the single built path
`"UB/t/d/f"` is missing and the check fails naming exactly it (failure
branch). -/
theorem cross_validation_fail_fast_witness :
    ((∀ p ∈ patch_install_paths "payloads/Universal-Binaries" (pyFloat 22 0)
        (sys_patch_dict 22 0 20 22 false), (fun _ => true) p = true) ∧
     patch_install_paths "UB" (pyFloat 22 0)
        [("Graphics", [("G", (⟨"", ⟨20, 0, 23, 99⟩, [("/d", [("f", "t")])],
          [], [], [], []⟩ : PatchGroup))])] =
       [] ++ "UB/t/d/f" :: [] ∧
     (∀ q ∈ ([] : List String), (fun _ => false) q = true) ∧
     (fun _ => false) "UB/t/d/f" = false) ∧
    (validate_root_patch_files "payloads/Universal-Binaries" 22 0
        (sys_patch_dict 22 0 20 22 false) (fun _ => true) = .ok () ∧
     validate_root_patch_files "UB" 22 0
        [("Graphics", [("G", (⟨"", ⟨20, 0, 23, 99⟩, [("/d", [("f", "t")])],
          [], [], [], []⟩ : PatchGroup))])]
        (fun _ => false) = .error "UB/t/d/f") := by
  have hin : group_in_range (pyFloat 22 0)
      (⟨"", ⟨20, 0, 23, 99⟩, [("/d", [("f", "t")])], [], [], [], []⟩ : PatchGroup) :=
    (group_in_range_iff_lex 22 0 _ (by decide) (by decide) rfl).mpr
      ⟨by decide, by decide⟩
  refine ⟨⟨fun _ _ => rfl, by simp [patch_install_paths, hin], by simp, rfl⟩, ?_, ?_⟩
  · exact (cross_validation_fail_fast "payloads/Universal-Binaries" 22 0
      (sys_patch_dict 22 0 20 22 false) (fun _ => true)).1 (fun _ _ => rfl)
  · exact (cross_validation_fail_fast "UB" 22 0
      [("Graphics", [("G", (⟨"", ⟨20, 0, 23, 99⟩, [("/d", [("f", "t")])],
        [], [], [], []⟩ : PatchGroup))])]
      (fun _ => false)).2.2 "UB/t/d/f" [] []
      (by simp [patch_install_paths, hin]) (by simp) rfl

/-
### C8 / C9 — orphan detection
-/

theorem isPrefixOf_self (l : List Char) : l.isPrefixOf l = true := by
  induction l with
  | nil => rfl
  | cons c t ih => simp [List.isPrefixOf, ih]

theorem is_substring_self (s : String) : is_substring s s = true := by
  unfold is_substring
  cases hd : s.data with
  | nil => rfl
  | cons c t => simp [isInfixB, isPrefixOf_self]

/-- C8: with a non-empty recorded used-path list, orphan detection reports a
payload-tree file (by its relative path) iff it survives the housekeeping
exclusions (`.DS_Store` basename, `.fseventsd/fseventsd-uuid`, `.signed`) and
no used path's relative form is a substring of it in either direction.
Consequently, a used-path set that exactly covers the tree minus the
exclusions yields an empty report, and a tree extended by one unreferenced,
non-housekeeping file reports exactly that file (the scan distributes over
the extension, the covered part reports nothing, and the extra file alone is
reported). -/
theorem orphan_detection_characterization (payload_root : String)
    (tree active : List String) (hne : active ≠ []) :
    (∀ rel, rel ∈ find_unused_files payload_root tree active ↔
      ∃ file ∈ tree, relative_to payload_root file = rel ∧
        path_name rel ≠ ".DS_Store" ∧
        rel ≠ ".fseventsd/fseventsd-uuid" ∧ rel ≠ ".signed" ∧
        ∀ used_file ∈ active,
          is_substring rel (relative_to payload_root used_file) = false ∧
          is_substring (relative_to payload_root used_file) rel = false) ∧
    ((∀ file ∈ tree,
        path_name (relative_to payload_root file) ≠ ".DS_Store" →
        relative_to payload_root file ≠ ".fseventsd/fseventsd-uuid" →
        relative_to payload_root file ≠ ".signed" →
        ∃ used_file ∈ active,
          relative_to payload_root used_file = relative_to payload_root file) →
      find_unused_files payload_root tree active = []) ∧
    (∀ extra,
      find_unused_files payload_root (tree ++ [extra]) active =
        find_unused_files payload_root tree active ++
        find_unused_files payload_root [extra] active) ∧
    (∀ extra,
      path_name (relative_to payload_root extra) ≠ ".DS_Store" →
      relative_to payload_root extra ≠ ".fseventsd/fseventsd-uuid" →
      relative_to payload_root extra ≠ ".signed" →
      (∀ used_file ∈ active,
        is_substring (relative_to payload_root extra)
            (relative_to payload_root used_file) = false ∧
        is_substring (relative_to payload_root used_file)
            (relative_to payload_root extra) = false) →
      find_unused_files payload_root [extra] active =
        [relative_to payload_root extra]) := by
  refine ⟨?_, ?_, ?_, ?_⟩
  · intro rel
    unfold find_unused_files
    rw [if_neg hne, List.mem_filterMap]
    constructor
    · rintro ⟨file, hfile, hsome⟩
      refine ⟨file, hfile, ?_⟩
      by_cases h1 : path_name (relative_to payload_root file) = ".DS_Store"
      · simp [h1] at hsome
      · by_cases h2 : relative_to payload_root file = ".fseventsd/fseventsd-uuid" ∨
            relative_to payload_root file = ".signed"
        · simp [h1, h2] at hsome
        · by_cases h3 : active.any (fun used_file =>
              is_substring (relative_to payload_root file)
                (relative_to payload_root used_file) ||
              is_substring (relative_to payload_root used_file)
                (relative_to payload_root file)) = true
          · simp [h1, h2, h3] at hsome
          · simp [h1, h2, h3] at hsome
            subst hsome
            push_neg at h2
            refine ⟨rfl, h1, h2.1, h2.2, ?_⟩
            intro u hu
            rw [Bool.not_eq_true, List.any_eq_false] at h3
            have h4 := h3 u hu
            rw [Bool.not_eq_true, Bool.or_eq_false_iff] at h4
            exact h4
    · rintro ⟨file, hfile, hrel, hds, hfse, hsig, hall⟩
      refine ⟨file, hfile, ?_⟩
      have hany : active.any (fun used_file =>
          is_substring (relative_to payload_root file)
            (relative_to payload_root used_file) ||
          is_substring (relative_to payload_root used_file)
            (relative_to payload_root file)) = false := by
        rw [List.any_eq_false]
        intro u hu
        rw [Bool.not_eq_true, Bool.or_eq_false_iff, hrel]
        exact hall u hu
      simp [hds, hfse, hsig, hany, hrel]
      exact hall
  · intro hcover
    unfold find_unused_files
    rw [if_neg hne, List.filterMap_eq_nil_iff]
    intro file hfile
    by_cases h1 : path_name (relative_to payload_root file) = ".DS_Store"
    · simp [h1]
    · by_cases h2 : relative_to payload_root file = ".fseventsd/fseventsd-uuid" ∨
          relative_to payload_root file = ".signed"
      · simp [h1, h2]
      · push_neg at h2
        obtain ⟨u, hu, hurel⟩ := hcover file hfile h1 h2.1 h2.2
        have hany : active.any (fun used_file =>
            is_substring (relative_to payload_root file)
              (relative_to payload_root used_file) ||
            is_substring (relative_to payload_root used_file)
              (relative_to payload_root file)) = true := by
          rw [List.any_eq_true]
          exact ⟨u, hu, by rw [hurel]; simp [is_substring_self]⟩
        simp [h1, h2.1, h2.2, hany]
  · intro extra
    unfold find_unused_files
    rw [if_neg hne, if_neg hne, if_neg hne, List.filterMap_append]
  · intro extra hds hfse hsig hall
    unfold find_unused_files
    rw [if_neg hne]
    have hex : ¬ ∃ x ∈ active,
        is_substring (relative_to payload_root extra) (relative_to payload_root x) = true ∨
        is_substring (relative_to payload_root x) (relative_to payload_root extra) = true := by
      rintro ⟨x, hx, hor⟩
      rcases hall x hx with ⟨ha, hb⟩
      rcases hor with h | h
      · rw [ha] at h; cases h
      · rw [hb] at h; cases h
    simp [List.filterMap_cons, hds, hfse, hsig, hex]

/-- C8, witness: the theorem at payload root `"UB"`, tree `["UB/a/b"]`,
used list `["UB/a/b"]` and extra file `"UB/zz"`. -/
theorem orphan_detection_characterization_witness :
    ((["UB/a/b"] : List String) ≠ [] ∧
     path_name (relative_to "UB" "UB/zz") ≠ ".DS_Store" ∧
     relative_to "UB" "UB/zz" ≠ ".fseventsd/fseventsd-uuid" ∧
     relative_to "UB" "UB/zz" ≠ ".signed" ∧
     (∀ used_file ∈ (["UB/a/b"] : List String),
       is_substring (relative_to "UB" "UB/zz") (relative_to "UB" used_file) = false ∧
       is_substring (relative_to "UB" used_file) (relative_to "UB" "UB/zz") = false)) ∧
    (find_unused_files "UB" ["UB/a/b"] ["UB/a/b"] = [] ∧
     find_unused_files "UB" (["UB/a/b"] ++ ["UB/zz"]) ["UB/a/b"] =
       [relative_to "UB" "UB/zz"]) :=
  ⟨⟨by decide, by decide, by decide, by decide, by decide⟩,
   (orphan_detection_characterization "UB" ["UB/a/b"] ["UB/a/b"] (by decide)).2.1
     (by decide),
   by
    rw [(orphan_detection_characterization "UB" ["UB/a/b"] ["UB/a/b"]
          (by decide)).2.2.1 "UB/zz",
      (orphan_detection_characterization "UB" ["UB/a/b"] ["UB/a/b"]
          (by decide)).2.1 (by decide),
      (orphan_detection_characterization "UB" ["UB/a/b"] ["UB/a/b"]
          (by decide)).2.2.2 "UB/zz" (by decide) (by decide) (by decide) (by decide),
      List.nil_append]⟩

/-- C9: when the recorded used-path list is empty, `_find_unused_files`
returns at its early exit (lines 246-247): no file is reported as unused,
whatever the payload tree contains. -/
theorem orphan_detection_empty_used_returns_nothing (payload_root : String)
    (tree : List String) :
    find_unused_files payload_root tree [] = [] := by
  unfold find_unused_files
  rw [if_pos rfl]

/-
### C10 — constructor behaviour on the supported-majors list
-/

/-- C10, counterexample.  The claim states that every construction with a
non-empty supported-majors list completes and produces the full catalog; but
with the non-empty list `[20, 21, 22]`, kernel major 21 and the malformed
marketing version `"foo"`, the constructor raises `InvalidVersion` inside
the CVE predicate (computed before the list is ever indexed), so it does not
complete. -/
theorem constructor_raises_invalid_version_on_nonempty_list :
    SystemPatchDictionary 21 0 [20, 21, 22] "foo" = .error .invalidVersion ∧
    ([20, 21, 22] : List ℕ) ≠ [] := by
  constructor <;> decide

/-- C10 (amended): provided the CVE predicate itself does not raise (the
marketing version parses, or the major is above Sonoma), constructing the
patch catalog with an empty supported-majors list raises `IndexError` (the
first group indexes `[0]` and `[-1]` unconditionally), and with any
non-empty list it completes and produces the full catalog dictionary.  When
the CVE predicate raises, its exception propagates from the constructor
before the list is touched. -/
theorem constructor_index_error_characterization (os_major os_minor : ℕ)
    (nm : List ℕ) (mv : String) :
    (∀ aff, is_affect_by_cve_2024_23227 os_major mv = .ok aff →
      ((nm = [] → SystemPatchDictionary os_major os_minor nm mv = .error .indexError) ∧
       (∀ nm0 nmLast, nm.head? = some nm0 → nm.getLast? = some nmLast →
         SystemPatchDictionary os_major os_minor nm mv =
           .ok (sys_patch_dict os_major os_minor nm0 nmLast aff)))) ∧
    (∀ e, is_affect_by_cve_2024_23227 os_major mv = .error e →
      SystemPatchDictionary os_major os_minor nm mv = .error e) := by
  constructor
  · intro aff haff
    constructor
    · intro hnm
      subst hnm
      simp [SystemPatchDictionary, haff]
    · intro nm0 nmLast h0 hL
      simp [SystemPatchDictionary, haff, h0, hL]
  · intro e he
    simp [SystemPatchDictionary, he]

/-- C10, witness: the theorem at kernel `22.0`, marketing version `"13.0"`
(CVE predicate returns `false`), on the empty list and on `[20, 21, 22]`. -/
theorem constructor_index_error_characterization_witness :
    (is_affect_by_cve_2024_23227 22 "13.0" = .ok false ∧
     ([] : List ℕ) = [] ∧
     ([20, 21, 22] : List ℕ).head? = some 20 ∧
     ([20, 21, 22] : List ℕ).getLast? = some 22) ∧
    (SystemPatchDictionary 22 0 [] "13.0" = .error .indexError ∧
     SystemPatchDictionary 22 0 [20, 21, 22] "13.0" =
       .ok (sys_patch_dict 22 0 20 22 false)) :=
  ⟨⟨by decide, rfl, by decide, by decide⟩,
   ((constructor_index_error_characterization 22 0 [] "13.0").1 false
      (by decide)).1 rfl,
   ((constructor_index_error_characterization 22 0 [20, 21, 22] "13.0").1 false
      (by decide)).2 20 22 (by decide) (by decide)⟩

end OCLP
